import Mathlib

/-!
Verification of the layered chatbot's decision, learning and analytics
core, shallowly embedded from the Python sources
(backend/decision_engine.py, backend/learning_layer.py,
backend/analytics_layer.py, backend/storage_layer.py, backend/core.py).

Conventions of the embedding:
- Python floats are modelled as rationals; numeric literals such as 0.95
  become 19/20.
- Python lists and dicts become Lean lists and association lists kept in
  insertion order (Python dicts iterate in insertion order).
- `l[-n:]` becomes `pyTail n l`; `str.split()` becomes `pyWords`.
- Timestamps are opaque strings supplied by the caller of each operation.
- String literals are transcribed without apostrophes (e.g. "It is"
  instead of a contracted form); no claim depends on the exact text.
- Names keep the Python names, with the leading underscore of private
  helpers dropped.
-/

namespace Chatbot

/-- Python `l[-n:]`: the suffix of the most recent `n` elements. -/
def pyTail (n : Nat) (l : List α) : List α := l.drop (l.length - n)

/-- Python `str.lower()` (ASCII case folding). -/
def pyLower (s : String) : String := String.mk (s.data.map Char.toLower)

/-- Python `str.strip()`: whitespace removed from both ends. -/
def pyStrip (s : String) : String :=
  String.mk (((s.data.dropWhile Char.isWhitespace).reverse.dropWhile Char.isWhitespace).reverse)

/-- Accumulator pass behind `pyWords`: splits a character list at
whitespace, discarding empty chunks. -/
def wordsAux : List Char → List Char → List String
  | [], acc => if acc = [] then [] else [String.mk acc.reverse]
  | c :: cs, acc =>
    if c.isWhitespace then
      (if acc = [] then wordsAux cs [] else String.mk acc.reverse :: wordsAux cs [])
    else wordsAux cs (c :: acc)

/-- Python `str.split()`: whitespace-separated words, empties discarded. -/
def pyWords (s : String) : List String := wordsAux s.data []

/-- Whether `pat` is a prefix of `l` (character lists). -/
def startsWithChars : List Char → List Char → Bool
  | _, [] => true
  | [], _ :: _ => false
  | a :: as, b :: bs => a == b && startsWithChars as bs

/-- Whether `pat` occurs as a contiguous run inside `l`. -/
def containsChars (pat : List Char) : List Char → Bool
  | [] => pat.isEmpty
  | c :: cs => startsWithChars (c :: cs) pat || containsChars pat cs

/-- Python `pat in s` on strings. -/
def strContains (s pat : String) : Bool := containsChars pat.data s.data

theorem pyTail_length_le (n : Nat) (l : List α) : (pyTail n l).length ≤ n := by
  simp only [pyTail, List.length_drop]
  omega

theorem pyTail_sublist (n : Nat) (l : List α) : (pyTail n l).Sublist l :=
  List.drop_sublist _ _

/-! ## Decision engine (backend/decision_engine.py) -/

/-- Config.FAQ_DATABASE, in insertion order. -/
def FAQ_DATABASE : List (String × String) := [
  ("what is pm of india", "The Prime Minister of India is Narendra Modi, who has been serving since May 2014."),
  ("who is prime minister", "The current Prime Minister of India is Narendra Modi."),
  ("pm india", "Narendra Modi is the Prime Minister of India."),
  ("what is data science", "Data science is an interdisciplinary field that uses scientific methods, processes, algorithms, and systems to extract knowledge and insights from structured and unstructured data. It combines statistics, mathematics, programming, and domain expertise."),
  ("data science", "Data science involves collecting, cleaning, analyzing, and interpreting large amounts of data to discover patterns and insights that can inform business decisions. It uses tools like Python, R, SQL, and machine learning algorithms."),
  ("machine learning", "Machine Learning is a subset of AI that enables computers to learn from data without explicit programming. It includes supervised learning (classification, regression), unsupervised learning (clustering), and reinforcement learning."),
  ("artificial intelligence", "Artificial Intelligence (AI) is the simulation of human intelligence in machines. It encompasses machine learning, natural language processing, computer vision, robotics, and expert systems."),
  ("python programming", "Python is a versatile, high-level programming language known for its simplicity and readability. It is extensively used in data science, web development, automation, and AI development."),
  ("best ai model", "Some of the best AI models include GPT-4, Claude, Gemini, and LLaMA. Each excels in different areas like reasoning, coding, or creativity."),
  ("ai model", "Popular AI models include OpenAI GPT series, Google Gemini, Anthropic Claude, and Meta LLaMA."),
  ("leader of inc", "The current president of the Indian National Congress (INC) is Mallikarjun Kharge, elected in October 2022."),
  ("inc leader", "Mallikarjun Kharge is the current president of the Indian National Congress."),
  ("rahul gandhi", "Rahul Gandhi is an Indian politician and member of the Indian National Congress. He served as Congress President from 2017-2019 and is currently a Member of Parliament."),
  ("rahul gandhi details", "Rahul Gandhi is the son of Sonia Gandhi and late Rajiv Gandhi. He represents Wayanad constituency in Lok Sabha and is a prominent opposition leader in India."),
  ("what time is it", "I cannot access real-time information, but you can check your device clock."),
  ("how are you", "I am functioning well and ready to help you!"),
  ("what can you do", "I can answer questions, provide information, and have conversations with you.")]

/-- The key-term table of DecisionEngine.check_faq, in insertion order. -/
def KEY_TERMS : List (String × String) := [
  ("ai model", "Some of the best AI models include GPT-4, Claude, Gemini, and LLaMA. Each excels in different areas like reasoning, coding, or creativity."),
  ("inc", "The current president of the Indian National Congress (INC) is Mallikarjun Kharge, elected in October 2022."),
  ("rahul", "Rahul Gandhi is an Indian politician and member of the Indian National Congress. He served as Congress President from 2017-2019 and is currently a Member of Parliament."),
  ("gandhi", "Rahul Gandhi is the son of Sonia Gandhi and late Rajiv Gandhi. He represents Wayanad constituency in Lok Sabha and is a prominent opposition leader in India.")]

/-- DecisionEngine._calculate_similarity: Jaccard similarity of word sets
(|intersection| / |union| over deduplicated word lists). -/
def calculate_similarity (text1 text2 : String) : ℚ :=
  let words1 := (pyWords text1).dedup
  let words2 := (pyWords text2).dedup
  if words1 = [] ∨ words2 = [] then 0
  else ((words1.filter (fun w => w ∈ words2)).length : ℚ) / ((words1 ++ words2).dedup.length : ℚ)

/-- The best-scoring partial FAQ match of DecisionEngine.check_faq: the fold
over the FAQ table keeping the best answer with similarity above the 0.5
threshold. -/
def faq_partial_best (text_lower : String) : Option String × ℚ :=
  FAQ_DATABASE.foldl (fun acc kv =>
    let similarity := calculate_similarity text_lower kv.1
    if similarity > acc.2 ∧ similarity > 1/2 then (some kv.2, similarity) else acc)
    (none, 0)

/-- DecisionEngine.check_faq: direct match (confidence 0.95), then best
partial match above 0.5, then key-term scan (confidence 0.8). -/
def check_faq (text : String) : Option (String × ℚ) :=
  let text_lower := pyStrip (pyLower text)
  match FAQ_DATABASE.lookup text_lower with
  | some answer => some (answer, 19/20)
  | none =>
    match faq_partial_best text_lower with
    | (some answer, score) => some (answer, score)
    | (none, _) =>
      match KEY_TERMS.find? (fun kv => strContains text_lower kv.1) with
      | some kv => some (kv.2, 4/5)
      | none => none

/-- The sentiment payload consumed by the decision engine. -/
structure SentimentResult where
  sentiment : String
  polarity : ℚ
  emotions : List String
deriving DecidableEq

/-- DecisionEngine.should_use_rule_based. -/
def should_use_rule_based (intent : String) (confidence : ℚ) : Bool :=
  if intent ∈ ["greeting", "goodbye", "compliment"] ∧ confidence > 7/10 then true
  else if confidence < 2/5 then true
  else false

/-- DecisionEngine.should_use_generative_ai; `history` is context["history"]. -/
def should_use_generative_ai (intent : String) (confidence : ℚ) (history : List String) : Bool :=
  if intent ∈ ["question", "general", "help"] ∧ confidence > 3/5 then true
  else if 2 < history.length then true
  else false

/-- DecisionEngine.get_fallback_strategy. -/
def get_fallback_strategy (intent : String) (sentiment : SentimentResult) : String :=
  if sentiment.sentiment = "negative" ∨ "anger" ∈ sentiment.emotions then "empathetic_fallback"
  else if intent = "question" then "question_fallback"
  else "friendly_fallback"

/-- The routing decision returned by decide_response_strategy. -/
structure Decision where
  strategy : String
  confidence : ℚ
  reasoning : String
  fallback_needed : Bool
  faq_answer : Option String := none
  fallback_type : Option String := none
deriving DecidableEq

/-- DecisionEngine.decide_response_strategy: the FAQ > rule_based >
generative_ai > fallback priority chain. -/
def decide_response_strategy (text intent : String) (confidence : ℚ)
    (sentiment : SentimentResult) (history : List String) : Decision :=
  match check_faq text with
  | some (answer, faq_confidence) =>
    { strategy := "faq", confidence := faq_confidence,
      reasoning := "Direct FAQ match found", fallback_needed := false,
      faq_answer := some answer }
  | none =>
    if should_use_rule_based intent confidence then
      { strategy := "rule_based", confidence := confidence,
        reasoning := "Rule-based suitable for " ++ intent, fallback_needed := false }
    else if should_use_generative_ai intent confidence history then
      { strategy := "generative_ai", confidence := confidence,
        reasoning := "Complex query suitable for AI: " ++ intent, fallback_needed := false }
    else
      let fallback_strategy := get_fallback_strategy intent sentiment
      { strategy := "fallback", confidence := confidence,
        reasoning := "Using fallback strategy: " ++ fallback_strategy,
        fallback_needed := true, fallback_type := some fallback_strategy }

/-- Spec test vector: the exact FAQ key "pm india" routes to faq with
confidence 0.95 regardless of intent and sentiment. -/
example :
    decide_response_strategy "pm india" "complaint" (1/10)
      ⟨"negative", -1, ["anger"]⟩ [] =
    { strategy := "faq", confidence := 19/20, reasoning := "Direct FAQ match found",
      fallback_needed := false,
      faq_answer := some "Narendra Modi is the Prime Minister of India." } := rfl

/-- C1. decide_response_strategy is total and deterministic: it always
returns exactly one decision, whose strategy is one of the four fixed
strategy names; equal inputs give equal decisions; and whenever check_faq
finds a match (exact key, Jaccard similarity above 0.5, or key-term hit)
the decision's strategy is "faq", ahead of the rule-based, generative and
fallback conditions. -/
theorem decide_response_strategy_total_deterministic_faq_first :
    ∀ (text intent : String) (confidence : ℚ) (sentiment : SentimentResult)
      (history : List String),
      (decide_response_strategy text intent confidence sentiment history).strategy ∈
        (["faq", "rule_based", "generative_ai", "fallback"] : List String) ∧
      (∀ r, check_faq text = some r →
        (decide_response_strategy text intent confidence sentiment history).strategy = "faq") ∧
      (∀ (text2 intent2 : String) (confidence2 : ℚ) (sentiment2 : SentimentResult)
         (history2 : List String),
         text = text2 → intent = intent2 → confidence = confidence2 →
         sentiment = sentiment2 → history = history2 →
         decide_response_strategy text intent confidence sentiment history =
           decide_response_strategy text2 intent2 confidence2 sentiment2 history2) := by
  intro text intent confidence sentiment history
  refine ⟨?_, ?_, ?_⟩
  · unfold decide_response_strategy
    rcases check_faq text with _ | ⟨answer, c⟩
    · dsimp only
      split
      · simp
      · split <;> simp
    · simp
  · intro r hr
    unfold decide_response_strategy
    rw [hr]
  · intro text2 intent2 confidence2 sentiment2 history2 h1 h2 h3 h4 h5
    rw [h1, h2, h3, h4, h5]

/-- Witness for C1 at the concrete FAQ key "pm india": the FAQ hit forces
strategy "faq". -/
theorem decide_response_strategy_faq_witness :
    (decide_response_strategy "pm india" "question" (1/2) ⟨"neutral", 0, []⟩ []).strategy = "faq" :=
  (decide_response_strategy_total_deterministic_faq_first "pm india" "question" (1/2)
    ⟨"neutral", 0, []⟩ []).2.1
    ("Narendra Modi is the Prime Minister of India.", 19/20) rfl

/-! ## Learning layer data model (backend/learning_layer.py) -/

/-- One entry of learning_data["intent_improvements"]. -/
structure IntentData where
  successful_patterns : List String
  failed_patterns : List String
  improvement_suggestions : List String
deriving DecidableEq

/-- One entry of learning_data["response_feedback"]. -/
structure FeedbackRecord where
  timestamp : String
  strategy : String
  success : Bool
  user_sentiment : String
  response_confidence : ℚ
deriving DecidableEq

/-- One entry of learning_data["pattern_discoveries"]. -/
structure Discovery where
  timestamp : String
  pattern : String
  intent : String
  sentiment : String
  frequency : Nat
deriving DecidableEq

/-- A per-intent counter pair of a daily performance record. -/
structure PerfEntry where
  total : Nat
  successful : Nat
deriving DecidableEq

/-- One entry of learning_data["model_performance_history"]. -/
structure PerfRecord where
  date : String
  intent_performance : List (String × PerfEntry)
  overall_accuracy : ℚ
deriving DecidableEq

/-- An optimization suggestion (generate_optimization_suggestions). -/
structure Suggestion where
  type : String
  priority : String
  suggestion : String
  action : String
  target : String
deriving DecidableEq

/-- The in-memory learning corpus (learning_data). -/
structure LearningData where
  intent_improvements : List (String × IntentData)
  response_feedback : List FeedbackRecord
  pattern_discoveries : List Discovery
  optimization_suggestions : List Suggestion
  model_performance_history : List PerfRecord
deriving DecidableEq

/-- The empty learning corpus (_load_learning_data's default). -/
def emptyLearningData : LearningData :=
  { intent_improvements := [], response_feedback := [], pattern_discoveries := [],
    optimization_suggestions := [], model_performance_history := [] }

/-- Python dict read with default. -/
def getVal (m : List (String × α)) (k : String) (d : α) : α :=
  ((m.find? (fun kv => kv.1 == k)).map Prod.snd).getD d

/-- Python dict write: replace the entry in place, or append a new one. -/
def setVal (m : List (String × α)) (k : String) (v : α) : List (String × α) :=
  if m.any (fun kv => kv.1 == k) then
    m.map (fun kv => if kv.1 == k then (k, v) else kv)
  else m ++ [(k, v)]

/-- The inputs of one learn_from_conversation call: the turn's message,
the bot_response fields it reads, the classified intent, the sentiment
label, the success flag, and the call's timestamp / date strings. -/
structure TurnInput where
  user_id : String
  user_message : String
  strategy : String
  response_confidence : ℚ
  intent : String
  sentiment : String
  success : Bool
  now : String
  today : String
deriving DecidableEq

/-! ## Learning layer operations -/

/-- LearningLayer._extract_patterns: up to 10 salient n-grams — unigrams
longer than 3 characters, bigrams longer than 6, trigrams longer than 10. -/
def extract_patterns (text : String) : List String :=
  let words := pyWords (pyLower text)
  let unigrams := words.filter (fun w => 3 < w.length)
  let bigrams := ((words.zip words.tail).map (fun ab => ab.1 ++ " " ++ ab.2)).filter
    (fun b => 6 < b.length)
  let trigrams := ((words.zip (words.tail.zip words.tail.tail)).map
    (fun abc => abc.1 ++ " " ++ abc.2.1 ++ " " ++ abc.2.2)).filter (fun t => 10 < t.length)
  (unigrams ++ bigrams ++ trigrams).take 10

/-- LearningLayer._learn_intent_patterns, acting on the
intent_improvements table. -/
def learnIntentPatternsMap (m : List (String × IntentData)) (user_message intent : String)
    (success : Bool) : List (String × IntentData) :=
  let d0 := getVal m intent ⟨[], [], []⟩
  let patterns := extract_patterns user_message
  let d1 :=
    if success then { d0 with successful_patterns := d0.successful_patterns ++ patterns }
    else { d0 with failed_patterns := d0.failed_patterns ++ patterns }
  let d2 := { d1 with successful_patterns := pyTail 50 d1.successful_patterns,
                      failed_patterns := pyTail 20 d1.failed_patterns }
  let d3 :=
    if 5 < d2.failed_patterns.length then
      let sug := "Intent " ++ intent ++ " has " ++ Nat.repr d2.failed_patterns.length ++
        " failed patterns. Consider retraining with more examples."
      if sug ∈ d2.improvement_suggestions then d2
      else { d2 with improvement_suggestions := d2.improvement_suggestions ++ [sug] }
    else d2
  setVal m intent d3

/-- LearningLayer._learn_intent_patterns. -/
def learn_intent_patterns (ld : LearningData) (user_message intent : String)
    (success : Bool) : LearningData :=
  { ld with intent_improvements :=
      learnIntentPatternsMap ld.intent_improvements user_message intent success }

/-- LearningLayer._learn_response_effectiveness, acting on the feedback
log. -/
def learnResponseEffectivenessList (fb : List FeedbackRecord) (now strategy : String)
    (success : Bool) (user_sentiment : String) (response_confidence : ℚ) :
    List FeedbackRecord :=
  let fb1 := fb ++ [{ timestamp := now, strategy := strategy, success := success,
                      user_sentiment := user_sentiment,
                      response_confidence := response_confidence }]
  if 500 < fb1.length then pyTail 500 fb1 else fb1

/-- LearningLayer._learn_response_effectiveness. -/
def learn_response_effectiveness (ld : LearningData) (now strategy : String) (success : Bool)
    (user_sentiment : String) (response_confidence : ℚ) : LearningData :=
  { ld with response_feedback :=
      (learnResponseEffectivenessList ld.response_feedback now strategy success
        user_sentiment response_confidence) }

/-- The patterns already recorded for an intent (the existing_patterns
list comprehension of _discover_patterns). -/
def existingPatternsFor (ds : List Discovery) (intent : String) : List String :=
  (ds.filter (fun d => d.intent == intent)).map (fun d => d.pattern)

/-- The first loop of _discover_patterns: append a frequency-1 discovery
for each pattern longer than 3 characters that is not yet recorded for
this intent (the existing-pattern check is re-evaluated against the
growing list on every iteration). -/
def addNewDiscoveries (now intent sentiment : String) :
    List Discovery → List String → List Discovery
  | ds, [] => ds
  | ds, p :: ps =>
    if p ∉ existingPatternsFor ds intent ∧ 3 < p.length then
      addNewDiscoveries now intent sentiment
        (ds ++ [{ timestamp := now, pattern := p, intent := intent,
                  sentiment := sentiment, frequency := 1 }]) ps
    else addNewDiscoveries now intent sentiment ds ps

/-- The body of the second loop of _discover_patterns: bump one
discovery's frequency when it belongs to this intent and its pattern was
sighted in this message. -/
def bumpSighted (intent : String) (patterns : List String) (d : Discovery) : Discovery :=
  if d.intent = intent ∧ d.pattern ∈ patterns then { d with frequency := d.frequency + 1 }
  else d

/-- The second loop of _discover_patterns: bump the frequency of every
discovery of this intent whose pattern was sighted in this message. -/
def updateFrequencies (intent : String) (patterns : List String)
    (ds : List Discovery) : List Discovery :=
  ds.map (bumpSighted intent patterns)

/-- LearningLayer._discover_patterns, acting on the discovery list:
add new records, bump sighted ones, keep the most recent 200. -/
def discoverPatternsList (ds : List Discovery) (now user_message intent sentiment : String) :
    List Discovery :=
  let patterns := extract_patterns user_message
  let ds1 := addNewDiscoveries now intent sentiment ds patterns
  let ds2 := updateFrequencies intent patterns ds1
  if 200 < ds2.length then pyTail 200 ds2 else ds2

/-- LearningLayer._discover_patterns. -/
def discover_patterns (ld : LearningData) (now user_message intent sentiment : String) :
    LearningData :=
  { ld with pattern_discoveries :=
      discoverPatternsList ld.pattern_discoveries now user_message intent sentiment }

/-- Sum of the per-intent total counters of a daily record. -/
def perfTotals (perf : List (String × PerfEntry)) : Nat :=
  (perf.map (fun kv => kv.2.total)).sum

/-- Sum of the per-intent successful counters of a daily record. -/
def perfSuccs (perf : List (String × PerfEntry)) : Nat :=
  (perf.map (fun kv => kv.2.successful)).sum

/-- The overall_accuracy recomputation of _track_model_performance:
successful / total * 100, or 0 when there are no attempts. -/
def accOf (perf : List (String × PerfEntry)) : ℚ :=
  if 0 < perfTotals perf then ((perfSuccs perf : ℚ) / (perfTotals perf : ℚ)) * 100 else 0

/-- Update the first entry carrying a key (Python mutates the dict value
in place). -/
def updateFirstKey (k : String) (f : PerfEntry → PerfEntry) :
    List (String × PerfEntry) → List (String × PerfEntry)
  | [] => []
  | kv :: rest =>
    if kv.1 == k then (kv.1, f kv.2) :: rest else kv :: updateFirstKey k f rest

/-- Update the first daily record carrying a date (Python mutates the
found record in place). -/
def updateFirstDate (today : String) (f : PerfRecord → PerfRecord) :
    List PerfRecord → List PerfRecord
  | [] => []
  | r :: rest =>
    if r.date == today then f r :: rest else r :: updateFirstDate today f rest

/-- The per-record update of _track_model_performance: bump the intent's
counters and recompute overall_accuracy. -/
def updatePerfRecord (intent : String) (success : Bool) (r : PerfRecord) : PerfRecord :=
  let perf0 := r.intent_performance
  let perf1 := if perf0.any (fun kv => kv.1 == intent) then perf0 else perf0 ++ [(intent, ⟨0, 0⟩)]
  let perf2 := updateFirstKey intent
    (fun e => { total := e.total + 1, successful := e.successful + (if success then 1 else 0) })
    perf1
  { r with intent_performance := perf2, overall_accuracy := accOf perf2 }

/-- LearningLayer._track_model_performance, acting on the history list:
find or create today's record, bump it, keep the most recent 90 days. -/
def trackPerformanceList (hist : List PerfRecord) (today intent : String) (success : Bool) :
    List PerfRecord :=
  let hist1 :=
    if hist.any (fun r => r.date == today) then hist
    else hist ++ [{ date := today, intent_performance := [], overall_accuracy := 0 }]
  let hist2 := updateFirstDate today (updatePerfRecord intent success) hist1
  if 90 < hist2.length then pyTail 90 hist2 else hist2

/-- LearningLayer._track_model_performance. -/
def track_model_performance (ld : LearningData) (today intent : String) (success : Bool) :
    LearningData :=
  { ld with model_performance_history :=
      trackPerformanceList ld.model_performance_history today intent success }

/-- LearningLayer.learn_from_conversation: the four learning updates of a
turn, in call order (the unused conversation_record and the best-effort
file save are elided). -/
def learn_from_conversation (ld : LearningData) (t : TurnInput) : LearningData :=
  let ld1 := learn_intent_patterns ld t.user_message t.intent t.success
  let ld2 := learn_response_effectiveness ld1 t.now t.strategy t.success t.sentiment
    t.response_confidence
  let ld3 := discover_patterns ld2 t.now t.user_message t.intent t.sentiment
  let ld4 := track_model_performance ld3 t.today t.intent t.success
  ld4

/-- The learning corpus after a sequence of turns, starting empty. -/
def runLearning (ts : List TurnInput) : LearningData :=
  ts.foldl learn_from_conversation emptyLearningData

/-! ## Projections of one learning step -/

theorem learn_intent_improvements_eq (ld : LearningData) (t : TurnInput) :
    (learn_from_conversation ld t).intent_improvements =
      learnIntentPatternsMap ld.intent_improvements t.user_message t.intent t.success := rfl

theorem learn_response_feedback_eq (ld : LearningData) (t : TurnInput) :
    (learn_from_conversation ld t).response_feedback =
      (learnResponseEffectivenessList ld.response_feedback t.now t.strategy t.success
        t.sentiment t.response_confidence) := rfl

theorem learn_pattern_discoveries_eq (ld : LearningData) (t : TurnInput) :
    (learn_from_conversation ld t).pattern_discoveries =
      discoverPatternsList ld.pattern_discoveries t.now t.user_message t.intent
        t.sentiment := rfl

theorem learn_model_performance_eq (ld : LearningData) (t : TurnInput) :
    (learn_from_conversation ld t).model_performance_history =
      trackPerformanceList ld.model_performance_history t.today t.intent t.success := rfl

/-! ## Generic invariant lemmas -/

theorem foldl_invariant {α β : Type _} (f : β → α → β) (P : β → Prop)
    (step : ∀ b a, P b → P (f b a)) :
    ∀ (l : List α) (b : β), P b → P (l.foldl f b)
  | [], _, hb => hb
  | a :: l, b, hb => foldl_invariant f P step l (f b a) (step b a hb)

theorem mem_setVal {α : Type _} (m : List (String × α)) (k : String) (v : α) :
    ∀ e ∈ setVal m k v, e = (k, v) ∨ e ∈ m := by
  intro e he
  unfold setVal at he
  split at he
  · rcases List.mem_map.mp he with ⟨kv, hkv, heq⟩
    by_cases hk : kv.1 == k
    · left
      rw [if_pos hk] at heq
      exact heq.symm
    · right
      rw [if_neg hk] at heq
      exact heq ▸ hkv
  · rcases List.mem_append.mp he with h | h
    · exact Or.inr h
    · left
      simpa using h

theorem mem_updateFirstDate (d : String) (f : PerfRecord → PerfRecord) :
    ∀ (l : List PerfRecord), ∀ r ∈ updateFirstDate d f l, r ∈ l ∨ ∃ r0 ∈ l, r = f r0 := by
  intro l
  induction l with
  | nil => intro r hr; simp [updateFirstDate] at hr
  | cons a rest ih =>
    intro r hr
    unfold updateFirstDate at hr
    split at hr
    · rcases List.mem_cons.mp hr with h | h
      · exact Or.inr ⟨a, List.mem_cons_self a rest, h⟩
      · exact Or.inl (List.mem_cons_of_mem a h)
    · rcases List.mem_cons.mp hr with h | h
      · exact Or.inl (h ▸ List.mem_cons_self a rest)
      · rcases ih r h with h2 | ⟨r0, hr0, hr0eq⟩
        · exact Or.inl (List.mem_cons_of_mem a h2)
        · exact Or.inr ⟨r0, List.mem_cons_of_mem a hr0, hr0eq⟩

/-! ## C2: bounded-list invariants of the learning corpus -/

theorem learnResponseEffectivenessList_le (fb : List FeedbackRecord) (now st : String)
    (s : Bool) (sent : String) (c : ℚ) :
    (learnResponseEffectivenessList fb now st s sent c).length ≤ 500 := by
  simp only [learnResponseEffectivenessList]
  split
  · exact pyTail_length_le _ _
  · omega

theorem discoverPatternsList_le (ds : List Discovery) (now msg intent sent : String) :
    (discoverPatternsList ds now msg intent sent).length ≤ 200 := by
  simp only [discoverPatternsList]
  split
  · exact pyTail_length_le _ _
  · omega

theorem trackPerformanceList_le (hist : List PerfRecord) (today intent : String) (s : Bool) :
    (trackPerformanceList hist today intent s).length ≤ 90 := by
  simp only [trackPerformanceList]
  repeat' split
  all_goals first
  | exact pyTail_length_le _ _
  | omega

theorem learnIntentPatternsMap_shape (m : List (String × IntentData))
    (msg intent : String) (success : Bool) :
    ∃ sp fp sugs, learnIntentPatternsMap m msg intent success =
      setVal m intent ⟨pyTail 50 sp, pyTail 20 fp, sugs⟩ := by
  simp only [learnIntentPatternsMap]
  repeat' split
  all_goals exact ⟨_, _, _, rfl⟩

theorem learnIntentPatternsMap_bounds (m : List (String × IntentData))
    (msg intent : String) (success : Bool)
    (hm : ∀ e ∈ m, e.2.successful_patterns.length ≤ 50 ∧ e.2.failed_patterns.length ≤ 20) :
    ∀ e ∈ learnIntentPatternsMap m msg intent success,
      e.2.successful_patterns.length ≤ 50 ∧ e.2.failed_patterns.length ≤ 20 := by
  intro e he
  obtain ⟨sp, fp, sugs, hshape⟩ := learnIntentPatternsMap_shape m msg intent success
  rw [hshape] at he
  rcases mem_setVal _ _ _ _ he with h | h
  · subst h
    exact ⟨pyTail_length_le _ _, pyTail_length_le _ _⟩
  · exact hm e h

/-- The bounded-list invariant of the learning corpus. -/
def BoundsOK (ld : LearningData) : Prop :=
  (∀ e ∈ ld.intent_improvements,
     e.2.successful_patterns.length ≤ 50 ∧ e.2.failed_patterns.length ≤ 20) ∧
  ld.response_feedback.length ≤ 500 ∧
  ld.pattern_discoveries.length ≤ 200 ∧
  ld.model_performance_history.length ≤ 90

theorem boundsOK_step (ld : LearningData) (t : TurnInput) (h : BoundsOK ld) :
    BoundsOK (learn_from_conversation ld t) := by
  refine ⟨?_, ?_, ?_, ?_⟩
  · rw [learn_intent_improvements_eq]
    exact learnIntentPatternsMap_bounds _ _ _ _ h.1
  · rw [learn_response_feedback_eq]
    exact learnResponseEffectivenessList_le _ _ _ _ _ _
  · rw [learn_pattern_discoveries_eq]
    exact discoverPatternsList_le _ _ _ _ _
  · rw [learn_model_performance_eq]
    exact trackPerformanceList_le _ _ _ _

theorem runLearning_boundsOK (ts : List TurnInput) : BoundsOK (runLearning ts) :=
  foldl_invariant learn_from_conversation BoundsOK
    (fun ld t h => boundsOK_step ld t h) ts emptyLearningData
    ⟨fun e he => absurd he (List.not_mem_nil e), by simp [emptyLearningData],
      by simp [emptyLearningData], by simp [emptyLearningData]⟩

/-- C2. After any number of learn_from_conversation calls starting from
the empty learning corpus: every intent keeps at most 50 successful and
20 failed patterns, the feedback log holds at most 500 records, the
discovery list at most 200 records, and the performance history at most
90 daily records. -/
theorem learning_corpus_bounded_lists :
    ∀ ts : List TurnInput,
      (∀ e ∈ (runLearning ts).intent_improvements,
        e.2.successful_patterns.length ≤ 50 ∧ e.2.failed_patterns.length ≤ 20) ∧
      (runLearning ts).response_feedback.length ≤ 500 ∧
      (runLearning ts).pattern_discoveries.length ≤ 200 ∧
      (runLearning ts).model_performance_history.length ≤ 90 := by
  intro ts
  exact runLearning_boundsOK ts

/-! ## C5: overall_accuracy of every daily snapshot -/

/-- A daily record's stored accuracy agrees with its counters. -/
def AccOK (r : PerfRecord) : Prop := r.overall_accuracy = accOf r.intent_performance

theorem accOf_nil : accOf [] = 0 := by
  simp [accOf, perfTotals]

theorem updatePerfRecord_accOK (intent : String) (success : Bool) (r : PerfRecord) :
    AccOK (updatePerfRecord intent success r) := by
  simp only [AccOK, updatePerfRecord]

theorem trackTailAccOK (hist1 : List PerfRecord) (today intent : String) (success : Bool)
    (h1 : ∀ r0 ∈ hist1, AccOK r0) :
    ∀ r ∈ (if 90 < (updateFirstDate today (updatePerfRecord intent success) hist1).length
           then pyTail 90 (updateFirstDate today (updatePerfRecord intent success) hist1)
           else updateFirstDate today (updatePerfRecord intent success) hist1), AccOK r := by
  intro r hr
  have hr2 : r ∈ updateFirstDate today (updatePerfRecord intent success) hist1 := by
    split at hr
    · exact (pyTail_sublist _ _).mem hr
    · exact hr
  rcases mem_updateFirstDate today (updatePerfRecord intent success) hist1 r hr2 with
    h2 | ⟨r0, _, h3⟩
  · exact h1 r h2
  · rw [h3]
    exact updatePerfRecord_accOK intent success r0

theorem trackPerformanceList_accOK (hist : List PerfRecord) (today intent : String)
    (success : Bool) (h : ∀ r ∈ hist, AccOK r) :
    ∀ r ∈ trackPerformanceList hist today intent success, AccOK r := by
  intro r hr
  simp only [trackPerformanceList] at hr
  refine trackTailAccOK _ today intent success ?_ r hr
  split
  · exact h
  · intro r0 hr0
    rcases List.mem_append.mp hr0 with h2 | h2
    · exact h r0 h2
    · have he : r0 = { date := today, intent_performance := [], overall_accuracy := 0 } := by
        simpa using h2
      rw [he, AccOK]
      exact accOf_nil.symm

/-- C5. In every learning corpus reachable from the empty one, every
daily performance snapshot carries overall_accuracy equal to
100 * (sum of successful over intents) / (sum of total over intents),
and 0 when the total sum is 0; in particular this holds for the updated
snapshot after every _track_model_performance call. -/
theorem daily_snapshot_accuracy_invariant :
    ∀ ts : List TurnInput,
      (runLearning ts).model_performance_history.Forall (fun r =>
        r.overall_accuracy =
          if perfTotals r.intent_performance = 0 then 0
          else 100 * (perfSuccs r.intent_performance : ℚ) / (perfTotals r.intent_performance : ℚ)) := by
  intro ts
  rw [List.forall_iff_forall_mem]
  intro r hr
  have hacc : AccOK r := by
    refine foldl_invariant learn_from_conversation
      (fun ld => ∀ r0 ∈ ld.model_performance_history, AccOK r0) ?_ ts emptyLearningData ?_ r hr
    · intro ld t hinv r0 hr0
      rw [learn_model_performance_eq] at hr0
      exact trackPerformanceList_accOK _ _ _ _ hinv r0 hr0
    · intro r0 hr0
      exact absurd hr0 (List.not_mem_nil r0)
  rw [hacc, accOf]
  rcases Nat.eq_zero_or_pos (perfTotals r.intent_performance) with h0 | h0
  · rw [h0]
    simp
  · rw [if_pos h0, if_neg (Nat.pos_iff_ne_zero.mp h0)]
    rw [mul_comm]
    exact (mul_div_assoc 100 (perfSuccs r.intent_performance : ℚ) _).symm

/-! ## C3 / C4: pattern-discovery bookkeeping -/

/-- The (pattern, intent) keys of a discovery list. -/
def discoveryKeys (ds : List Discovery) : List (String × String) :=
  ds.map (fun d => (d.pattern, d.intent))

/-- The frequencies stored for one (pattern, intent) key, in list order. -/
def keyFreqs (ds : List Discovery) (p intent : String) : List Nat :=
  (ds.filter (fun d => d.pattern == p && d.intent == intent)).map (fun d => d.frequency)

theorem mem_existingPatternsFor {ds : List Discovery} {intent p : String} :
    p ∈ existingPatternsFor ds intent ↔ ∃ d ∈ ds, d.intent = intent ∧ d.pattern = p := by
  simp only [existingPatternsFor, List.mem_map, List.mem_filter, beq_iff_eq]
  constructor
  · rintro ⟨d, ⟨hd, hi⟩, hp⟩
    exact ⟨d, hd, hi, hp⟩
  · rintro ⟨d, hd, hi, hp⟩
    exact ⟨d, ⟨hd, hi⟩, hp⟩

theorem keyFreqs_eq_nil_iff {ds : List Discovery} {p i : String} :
    keyFreqs ds p i = [] ↔ ∀ d ∈ ds, ¬(d.pattern = p ∧ d.intent = i) := by
  simp [keyFreqs, List.map_eq_nil_iff, List.filter_eq_nil_iff]

theorem keyFreqs_append (l1 l2 : List Discovery) (p i : String) :
    keyFreqs (l1 ++ l2) p i = keyFreqs l1 p i ++ keyFreqs l2 p i := by
  simp [keyFreqs, List.filter_append]

theorem keyFreqs_sublist {l1 l2 : List Discovery} (p i : String) (h : l1.Sublist l2) :
    (keyFreqs l1 p i).Sublist (keyFreqs l2 p i) :=
  (h.filter _).map _

theorem existingPatternsFor_append (ds : List Discovery) (r : Discovery) (intent : String)
    (h : r.intent = intent) :
    existingPatternsFor (ds ++ [r]) intent = existingPatternsFor ds intent ++ [r.pattern] := by
  simp [existingPatternsFor, List.filter_append, h]

theorem extract_patterns_length_le (text : String) :
    (extract_patterns text).length ≤ 10 := by
  simp only [extract_patterns]
  exact List.length_take_le _ _

/-- Splitting of the first _discover_patterns loop: it appends a block of
new records, each a first sighting — frequency 1, this turn's intent, a
pattern of the message longer than 3 characters that was not yet recorded
for the intent — with pairwise distinct patterns, and it appends one for
every such pattern. -/
theorem addNewDiscoveries_spec (now intent sent : String) :
    ∀ (ps : List String) (ds : List Discovery),
      ∃ new : List Discovery,
        addNewDiscoveries now intent sent ds ps = ds ++ new ∧
        new.length ≤ ps.length ∧
        (∀ r ∈ new, r.intent = intent ∧ r.frequency = 1 ∧ r.pattern ∈ ps ∧
          3 < r.pattern.length ∧ r.pattern ∉ existingPatternsFor ds intent) ∧
        (new.map (fun r => r.pattern)).Nodup ∧
        (∀ p ∈ ps, 3 < p.length → p ∉ existingPatternsFor ds intent →
          ∃ r ∈ new, r.pattern = p) := by
  intro ps
  induction ps with
  | nil =>
    intro ds
    exact ⟨[], by simp [addNewDiscoveries], by simp, by simp, by simp, by simp⟩
  | cons p ps ih =>
    intro ds
    by_cases hc : p ∉ existingPatternsFor ds intent ∧ 3 < p.length
    · obtain ⟨new, heq, hlen, hprops, hnd, hex⟩ := ih (ds ++
        [{ timestamp := now, pattern := p, intent := intent, sentiment := sent, frequency := 1 }])
      have hext : existingPatternsFor (ds ++
          [{ timestamp := now, pattern := p, intent := intent, sentiment := sent,
             frequency := 1 }]) intent = existingPatternsFor ds intent ++ [p] :=
        existingPatternsFor_append ds _ intent rfl
      refine ⟨{ timestamp := now, pattern := p, intent := intent, sentiment := sent,
                frequency := 1 } :: new, ?_, ?_, ?_, ?_, ?_⟩
      · rw [addNewDiscoveries, if_pos hc, heq, List.append_assoc]
        rfl
      · simpa using Nat.succ_le_succ hlen
      · intro r hr
        rcases List.mem_cons.mp hr with h | h
        · subst h
          exact ⟨rfl, rfl, List.mem_cons_self _ _, hc.2, hc.1⟩
        · obtain ⟨hi, hf, hm, hl, hnotin⟩ := hprops r h
          refine ⟨hi, hf, List.mem_cons_of_mem _ hm, hl, fun hmem => ?_⟩
          exact hnotin (hext ▸ List.mem_append.mpr (Or.inl hmem))
      · refine List.nodup_cons.mpr ⟨?_, hnd⟩
        intro hp
        rcases List.mem_map.mp hp with ⟨r, hr, hrp⟩
        obtain ⟨_, _, _, _, hnotin⟩ := hprops r hr
        exact hnotin (hext ▸ List.mem_append.mpr (Or.inr (by simp [hrp])))
      · intro q hq hql hqnotin
        rcases List.mem_cons.mp hq with h | h
        · exact ⟨_, List.mem_cons_self _ _, by rw [h]⟩
        · by_cases hq2 : q ∈ existingPatternsFor (ds ++
            [{ timestamp := now, pattern := p, intent := intent, sentiment := sent,
               frequency := 1 }]) intent
          · rw [hext] at hq2
            rcases List.mem_append.mp hq2 with h2 | h2
            · exact absurd h2 hqnotin
            · have hqp : q = p := by simpa using h2
              exact ⟨_, List.mem_cons_self _ _, by rw [hqp]⟩
          · obtain ⟨r, hr, hrq⟩ := hex q h hql hq2
            exact ⟨r, List.mem_cons_of_mem _ hr, hrq⟩
    · obtain ⟨new, heq, hlen, hprops, hnd, hex⟩ := ih ds
      refine ⟨new, ?_, Nat.le_succ_of_le hlen, ?_, hnd, ?_⟩
      · rw [addNewDiscoveries, if_neg hc]
        exact heq
      · intro r hr
        obtain ⟨hi, hf, hm, hl, hnotin⟩ := hprops r hr
        exact ⟨hi, hf, List.mem_cons_of_mem _ hm, hl, hnotin⟩
      · intro q hq hql hqnotin
        rcases List.mem_cons.mp hq with h | h
        · subst h
          exact absurd ⟨hqnotin, hql⟩ hc
        · exact hex q h hql hqnotin

theorem bumpSighted_pattern (i : String) (pats : List String) (d : Discovery) :
    (bumpSighted i pats d).pattern = d.pattern := by
  unfold bumpSighted
  split <;> rfl

theorem bumpSighted_intent (i : String) (pats : List String) (d : Discovery) :
    (bumpSighted i pats d).intent = d.intent := by
  unfold bumpSighted
  split <;> rfl

theorem bumpSighted_frequency_key (i : String) (pats : List String) (d : Discovery)
    (p : String) (hp : d.pattern = p) (hi : d.intent = i) :
    (bumpSighted i pats d).frequency =
      if p ∈ pats then d.frequency + 1 else d.frequency := by
  by_cases hmem : p ∈ pats
  · rw [if_pos hmem]
    unfold bumpSighted
    rw [if_pos ⟨hi, by rw [hp]; exact hmem⟩]
  · rw [if_neg hmem]
    unfold bumpSighted
    rw [if_neg]
    rintro ⟨-, hmem2⟩
    exact hmem (hp ▸ hmem2)

theorem keyFreqs_cons (d : Discovery) (ds : List Discovery) (p i : String) :
    keyFreqs (d :: ds) p i =
      if d.pattern = p ∧ d.intent = i then d.frequency :: keyFreqs ds p i
      else keyFreqs ds p i := by
  simp only [keyFreqs, List.filter_cons]
  by_cases hk : d.pattern = p ∧ d.intent = i
  · rw [if_pos (by simp [hk.1, hk.2] : (d.pattern == p && d.intent == i) = true), if_pos hk]
    rfl
  · rw [if_neg (by simpa using hk), if_neg hk]

theorem keyFreqs_updateFrequencies (intent : String) (patterns : List String)
    (ds : List Discovery) (p : String) :
    keyFreqs (updateFrequencies intent patterns ds) p intent =
      (keyFreqs ds p intent).map (fun f => if p ∈ patterns then f + 1 else f) := by
  induction ds with
  | nil => rfl
  | cons d rest ih =>
    have ih2 : keyFreqs (List.map (bumpSighted intent patterns) rest) p intent =
        (keyFreqs rest p intent).map (fun f => if p ∈ patterns then f + 1 else f) := ih
    simp only [updateFrequencies, List.map_cons, keyFreqs_cons, bumpSighted_pattern,
      bumpSighted_intent]
    by_cases hk : d.pattern = p ∧ d.intent = intent
    · rw [if_pos hk, if_pos hk, List.map_cons, ih2,
        bumpSighted_frequency_key intent patterns d p hk.1 hk.2]
    · rw [if_neg hk, if_neg hk, ih2]

theorem updateFrequencies_append (i : String) (pats : List String) (l1 l2 : List Discovery) :
    updateFrequencies i pats (l1 ++ l2) =
      updateFrequencies i pats l1 ++ updateFrequencies i pats l2 := by
  simp [updateFrequencies]

theorem keyFreqs_of_unique (p i : String) :
    ∀ (new : List Discovery),
      (∀ r ∈ new, r.intent = i) → (∀ r ∈ new, r.frequency = 1) →
      (new.map (fun r => r.pattern)).Nodup → (∃ r ∈ new, r.pattern = p) →
      keyFreqs new p i = [1] := by
  intro new
  induction new with
  | nil =>
    rintro - - - ⟨r, hr, -⟩
    exact absurd hr (List.not_mem_nil r)
  | cons d rest ih =>
    intro hint hfreq hnd hex
    rw [keyFreqs_cons]
    by_cases hk : d.pattern = p ∧ d.intent = i
    · rw [if_pos hk]
      have hrest : keyFreqs rest p i = [] := by
        rw [keyFreqs_eq_nil_iff]
        intro r hr hkey
        have hmem : d.pattern ∈ rest.map (fun r => r.pattern) := by
          rw [hk.1]
          exact List.mem_map.mpr ⟨r, hr, hkey.1⟩
        exact (List.nodup_cons.mp hnd).1 hmem
      rw [hrest, hfreq d (List.mem_cons_self _ _)]
    · rw [if_neg hk]
      refine ih (fun r hr => hint r (List.mem_cons_of_mem _ hr))
        (fun r hr => hfreq r (List.mem_cons_of_mem _ hr)) (List.nodup_cons.mp hnd).2 ?_
      rcases hex with ⟨r, hr, hrp⟩
      rcases List.mem_cons.mp hr with h | h
      · exact absurd ⟨h ▸ hrp, hint d (List.mem_cons_self _ _)⟩ hk
      · exact ⟨r, h, hrp⟩

/-- A fresh sighting: if (p, intent) has no record yet, p is among the
turn's extracted patterns and is longer than 3 characters, then after
_discover_patterns exactly one record for (p, intent) exists and its
frequency is 2: it is inserted with frequency 1 and bumped by the same
call's frequency-update pass. -/
theorem discoverPatternsList_fresh (ds : List Discovery) (now msg intent sent p : String)
    (hnil : keyFreqs ds p intent = [])
    (hmem : p ∈ extract_patterns msg) (hlen : 3 < p.length) :
    keyFreqs (discoverPatternsList ds now msg intent sent) p intent = [2] := by
  obtain ⟨new, heq, hnewlen, hprops, hnd, hex⟩ :=
    addNewDiscoveries_spec now intent sent (extract_patterns msg) ds
  have hpnot : p ∉ existingPatternsFor ds intent := by
    intro hp
    rcases mem_existingPatternsFor.mp hp with ⟨d, hd, hi, hpat⟩
    exact (keyFreqs_eq_nil_iff.mp hnil d hd) ⟨hpat, hi⟩
  have hknew : keyFreqs new p intent = [1] :=
    keyFreqs_of_unique p intent new (fun r hr => (hprops r hr).1)
      (fun r hr => (hprops r hr).2.1) hnd (hex p hmem hlen hpnot)
  have hk2 : keyFreqs (updateFrequencies intent (extract_patterns msg) (ds ++ new))
      p intent = [2] := by
    rw [keyFreqs_updateFrequencies, keyFreqs_append, hnil, hknew]
    simp [hmem]
  simp only [discoverPatternsList]
  rw [heq]
  split
  · rename_i hgt
    rw [updateFrequencies_append] at hgt ⊢
    have hlenB : (updateFrequencies intent (extract_patterns msg) new).length ≤ 200 := by
      have h1 : (updateFrequencies intent (extract_patterns msg) new).length = new.length := by
        simp [updateFrequencies]
      have h2 := extract_patterns_length_le msg
      omega
    have hkle : (updateFrequencies intent (extract_patterns msg) ds ++
          updateFrequencies intent (extract_patterns msg) new).length - 200 ≤
        (updateFrequencies intent (extract_patterns msg) ds).length := by
      rw [List.length_append]
      omega
    rw [pyTail, List.drop_append_of_le_length hkle, keyFreqs_append]
    have hA : keyFreqs (updateFrequencies intent (extract_patterns msg) ds) p intent = [] := by
      rw [keyFreqs_updateFrequencies, hnil]
      rfl
    have hdropA : keyFreqs ((updateFrequencies intent (extract_patterns msg) ds).drop
        ((updateFrequencies intent (extract_patterns msg) ds ++
          updateFrequencies intent (extract_patterns msg) new).length - 200)) p intent = [] := by
      have hsub := keyFreqs_sublist p intent
        (List.drop_sublist ((updateFrequencies intent (extract_patterns msg) ds ++
          updateFrequencies intent (extract_patterns msg) new).length - 200)
          (updateFrequencies intent (extract_patterns msg) ds))
      rw [hA] at hsub
      exact List.sublist_nil.mp hsub
    rw [hdropA]
    have hB : keyFreqs (updateFrequencies intent (extract_patterns msg) new) p intent = [2] := by
      rw [keyFreqs_updateFrequencies, hknew]
      simp [hmem]
    rw [hB]
    rfl
  · exact hk2

/-- A repeat sighting: if (p, intent) already has exactly one record, with
frequency f, and p is sighted again, then after _discover_patterns the
key either was evicted by the 200-record truncation or still has exactly
one record, now with frequency f + 1; no second record is created. -/
theorem discoverPatternsList_existing (ds : List Discovery) (now msg intent sent p : String)
    (f : Nat) (hone : keyFreqs ds p intent = [f]) (hmem : p ∈ extract_patterns msg) :
    keyFreqs (discoverPatternsList ds now msg intent sent) p intent = [] ∨
    keyFreqs (discoverPatternsList ds now msg intent sent) p intent = [f + 1] := by
  obtain ⟨new, heq, -, hprops, -, -⟩ :=
    addNewDiscoveries_spec now intent sent (extract_patterns msg) ds
  have hpex : p ∈ existingPatternsFor ds intent := by
    by_contra hpnot
    have hnil : keyFreqs ds p intent = [] := by
      rw [keyFreqs_eq_nil_iff]
      intro d hd hkey
      exact hpnot (mem_existingPatternsFor.mpr ⟨d, hd, hkey.2, hkey.1⟩)
    rw [hone] at hnil
    exact List.cons_ne_nil f [] hnil
  have hknew : keyFreqs new p intent = [] := by
    rw [keyFreqs_eq_nil_iff]
    intro r hr hkey
    exact (hprops r hr).2.2.2.2 (hkey.1 ▸ hpex)
  have hk2 : keyFreqs (updateFrequencies intent (extract_patterns msg) (ds ++ new))
      p intent = [f + 1] := by
    rw [keyFreqs_updateFrequencies, keyFreqs_append, hone, hknew]
    simp [hmem]
  simp only [discoverPatternsList]
  rw [heq]
  split
  · have hsub : (keyFreqs (pyTail 200 (updateFrequencies intent (extract_patterns msg)
        (ds ++ new))) p intent).Sublist [f + 1] := by
      rw [← hk2]
      exact keyFreqs_sublist p intent (pyTail_sublist _ _)
    exact List.sublist_singleton.mp hsub
  · exact Or.inr hk2

/-! ## Nodup invariant on discovery keys -/

theorem discoveryKeys_append (l1 l2 : List Discovery) :
    discoveryKeys (l1 ++ l2) = discoveryKeys l1 ++ discoveryKeys l2 := by
  simp [discoveryKeys]

theorem discoveryKeys_updateFrequencies (i : String) (pats : List String)
    (ds : List Discovery) :
    discoveryKeys (updateFrequencies i pats ds) = discoveryKeys ds := by
  simp only [discoveryKeys, updateFrequencies, List.map_map]
  apply List.map_congr_left
  intro d _
  simp [bumpSighted_pattern, bumpSighted_intent]

theorem discoverPatternsList_keys_nodup (ds : List Discovery)
    (now msg intent sent : String) (h : (discoveryKeys ds).Nodup) :
    (discoveryKeys (discoverPatternsList ds now msg intent sent)).Nodup := by
  obtain ⟨new, heq, -, hprops, hnd, -⟩ :=
    addNewDiscoveries_spec now intent sent (extract_patterns msg) ds
  have hndapp : (discoveryKeys (ds ++ new)).Nodup := by
    rw [discoveryKeys_append, List.nodup_append]
    refine ⟨h, ?_, ?_⟩
    · have hkeysnew : discoveryKeys new =
          (new.map (fun r => r.pattern)).map (fun q => (q, intent)) := by
        rw [discoveryKeys, List.map_map]
        apply List.map_congr_left
        intro r hr
        simp [(hprops r hr).1]
      rw [hkeysnew]
      exact hnd.map (fun a b hab => congrArg Prod.fst hab)
    · intro k hk1 hk2
      rcases List.mem_map.mp hk1 with ⟨d, hd, hdk⟩
      rcases List.mem_map.mp hk2 with ⟨r, hr, hrk⟩
      obtain ⟨hi, -, -, -, hnotin⟩ := hprops r hr
      apply hnotin
      apply mem_existingPatternsFor.mpr
      have hdr : d.pattern = r.pattern ∧ d.intent = r.intent := by
        have := hdk.trans hrk.symm
        exact ⟨congrArg Prod.fst this, congrArg Prod.snd this⟩
      exact ⟨d, hd, hdr.2.trans hi, hdr.1⟩
  have h2 : (discoveryKeys (updateFrequencies intent (extract_patterns msg)
      (ds ++ new))).Nodup := by
    rw [discoveryKeys_updateFrequencies]
    exact hndapp
  simp only [discoverPatternsList]
  rw [heq]
  split
  · exact List.Nodup.sublist ((pyTail_sublist _ _).map _) h2
  · exact h2

/-- The turn used by the concrete pattern-discovery computations. -/
def t0 : TurnInput :=
  { user_id := "u1", user_message := "hello", strategy := "rule_based",
    response_confidence := 1/2, intent := "greeting", sentiment := "neutral",
    success := true, now := "2025-01-01T00:00:00", today := "2025-01-01" }

/-- C3 counterexample. Learning one turn with the fresh pattern "hello"
from the empty corpus leaves a discovery record whose frequency is 2, not
1: the record is added with frequency 1 and then incremented by the same
learning step's update loop. -/
theorem pattern_discovery_first_sighting_is_two :
    ((runLearning [t0]).pattern_discoveries.map (fun d => (d.pattern, d.intent, d.frequency)))
      = [("hello", "greeting", 2)] ∧
    keyFreqs (runLearning [t0]).pattern_discoveries "hello" "greeting" ≠ [1] := by
  constructor
  · decide
  · decide

/-- C3 (amended). When a turn is learned, each extracted pattern longer
than 3 characters that had no record for the turn's intent ends the step
with exactly one record of frequency 2 (inserted at 1, then incremented
once by the same step's sighting-update pass); each already-recorded
(pattern, intent) pair that is sighted again is incremented by exactly
one — its surviving record holds f + 1 — and gains no second record. -/
theorem pattern_discovery_frequency_after_learn :
    ∀ (ld : LearningData) (t : TurnInput) (p : String) (f : Nat),
      (p ∈ extract_patterns t.user_message → 3 < p.length →
        keyFreqs ld.pattern_discoveries p t.intent = [] →
        keyFreqs (learn_from_conversation ld t).pattern_discoveries p t.intent = [2]) ∧
      (keyFreqs ld.pattern_discoveries p t.intent = [f] →
        p ∈ extract_patterns t.user_message →
        keyFreqs (learn_from_conversation ld t).pattern_discoveries p t.intent = [] ∨
        keyFreqs (learn_from_conversation ld t).pattern_discoveries p t.intent = [f + 1]) := by
  intro ld t p f
  constructor
  · intro hmem hlen hnil
    rw [learn_pattern_discoveries_eq]
    exact discoverPatternsList_fresh _ _ _ _ _ _ hnil hmem hlen
  · intro hone hmem
    rw [learn_pattern_discoveries_eq]
    exact discoverPatternsList_existing _ _ _ _ _ _ _ hone hmem

/-- Witness for the amended C3 at the concrete turn t0: the fresh pattern
"hello" ends the learning step with the single frequency-2 record. -/
theorem pattern_discovery_frequency_witness :
    keyFreqs (learn_from_conversation emptyLearningData t0).pattern_discoveries
      "hello" "greeting" = [2] :=
  (pattern_discovery_frequency_after_learn emptyLearningData t0 "hello" 0).1
    (by decide) (by decide) rfl

/-- C4. In every learning corpus reachable from the empty one the
discovery list holds at most one record per (pattern, intent) key, and
re-sighting an already-known key in a further learning step increments
that record's frequency by exactly 1 and adds no record for the key: at
most the 200-record eviction can remove it, never duplicate it. -/
theorem pattern_discovery_no_duplicates :
    ∀ (ts : List TurnInput) (t : TurnInput) (p : String) (f : Nat),
      (discoveryKeys (runLearning ts).pattern_discoveries).Nodup ∧
      (keyFreqs (runLearning ts).pattern_discoveries p t.intent = [f] →
       p ∈ extract_patterns t.user_message →
       keyFreqs (learn_from_conversation (runLearning ts) t).pattern_discoveries p t.intent
           = [] ∨
       keyFreqs (learn_from_conversation (runLearning ts) t).pattern_discoveries p t.intent
           = [f + 1]) := by
  intro ts t p f
  constructor
  · refine foldl_invariant learn_from_conversation
      (fun ld => (discoveryKeys ld.pattern_discoveries).Nodup) ?_ ts emptyLearningData ?_
    · intro ld t2 hn
      rw [learn_pattern_discoveries_eq]
      exact discoverPatternsList_keys_nodup _ _ _ _ _ hn
    · simp [emptyLearningData, discoveryKeys]
  · intro hone hmem
    rw [learn_pattern_discoveries_eq]
    exact discoverPatternsList_existing _ _ _ _ _ _ _ hone hmem

/-- Witness for C4 at the concrete turn t0 repeated: the key
("hello", "greeting") holds frequency 2 after one turn, and after
learning the same turn again it holds exactly 3 (or would have been
evicted, which does not happen here). -/
theorem pattern_discovery_no_duplicates_witness :
    keyFreqs (learn_from_conversation (runLearning [t0]) t0).pattern_discoveries
        "hello" "greeting" = [] ∨
    keyFreqs (learn_from_conversation (runLearning [t0]) t0).pattern_discoveries
        "hello" "greeting" = [3] :=
  (pattern_discovery_no_duplicates [t0] t0 "hello" 2).2 (by decide) (by decide)

/-! ## Optimization-suggestion synthesis (C7, C9) -/

/-- Accumulator pass behind `firstOccurrences`: drop entries seen before. -/
def firstOccurrencesAux (seen : List String) : List String → List String
  | [] => []
  | x :: xs =>
    if x ∈ seen then firstOccurrencesAux seen xs
    else x :: firstOccurrencesAux (x :: seen) xs

/-- The distinct entries of a list in first-occurrence order, the
iteration order of a Python dict built while scanning the list. -/
def firstOccurrences (l : List String) : List String := firstOccurrencesAux [] l

theorem mem_firstOccurrencesAux : ∀ (l seen : List String) (a : String),
    a ∈ firstOccurrencesAux seen l ↔ a ∈ l ∧ a ∉ seen := by
  intro l
  induction l with
  | nil => simp [firstOccurrencesAux]
  | cons x xs ih =>
    intro seen a
    rw [firstOccurrencesAux]
    by_cases hx : x ∈ seen
    · rw [if_pos hx, ih]
      simp only [List.mem_cons]
      constructor
      · rintro ⟨h1, h2⟩
        exact ⟨Or.inr h1, h2⟩
      · rintro ⟨h1 | h1, h2⟩
        · exact absurd (h1 ▸ hx) h2
        · exact ⟨h1, h2⟩
    · rw [if_neg hx]
      simp only [List.mem_cons]
      constructor
      · rintro (h | h)
        · exact ⟨Or.inl h, h ▸ hx⟩
        · rcases (ih _ a).mp h with ⟨h1, h2⟩
          rw [List.mem_cons, not_or] at h2
          exact ⟨Or.inr h1, h2.2⟩
      · rintro ⟨h1 | h1, h2⟩
        · exact Or.inl h1
        · by_cases hax : a = x
          · exact Or.inl hax
          · refine Or.inr ((ih _ a).mpr ⟨h1, ?_⟩)
            rw [List.mem_cons, not_or]
            exact ⟨hax, h2⟩

theorem mem_firstOccurrences (l : List String) (a : String) :
    a ∈ firstOccurrences l ↔ a ∈ l := by
  rw [firstOccurrences, mem_firstOccurrencesAux]
  simp

/-- Config.INTENTS: the seed keyword lists per intent. -/
def INTENTS : List (String × List String) := [
  ("greeting", ["hello", "hi", "hey", "good morning", "good afternoon"]),
  ("goodbye", ["bye", "goodbye", "see you", "farewell", "exit"]),
  ("question", ["what", "how", "when", "where", "why", "who", "pm", "prime minister"]),
  ("help", ["help", "assist", "support", "guide", "can you"]),
  ("complaint", ["problem", "issue", "error", "bug", "broken", "not working"]),
  ("compliment", ["good", "great", "excellent", "amazing", "thank you", "thanks"]),
  ("general", ["tell me", "information", "about", "explain", "describe"])]

/-- LearningLayer._analyze_intent_performance: per intent, a high-priority
retrain suggestion when more than 10 failed patterns are stored, and a
low-priority template suggestion when more than 50 successful and fewer
than 5 failed patterns are stored. -/
def analyze_intent_performance (ld : LearningData) : List Suggestion :=
  ld.intent_improvements.flatMap (fun kv =>
    (if 10 < kv.2.failed_patterns.length then
      [{ type := "intent_improvement", priority := "high",
         suggestion := "Retrain intent classifier for " ++ kv.1 ++ " - " ++
           Nat.repr kv.2.failed_patterns.length ++ " failed classifications",
         action := "retrain_intent_model", target := kv.1 }]
     else []) ++
    (if 50 < kv.2.successful_patterns.length ∧ kv.2.failed_patterns.length < 5 then
      [{ type := "intent_optimization", priority := "low",
         suggestion := "Intent " ++ kv.1 ++
           " is performing well - consider it as a template for other intents",
         action := "use_as_template", target := kv.1 }]
     else []))

/-- The low-success-rate suggestion of _analyze_response_effectiveness. -/
def improveSuggestion (st : String) : Suggestion :=
  { type := "response_improvement", priority := "high",
    suggestion := "Response strategy " ++ st ++ " has low success rate",
    action := "improve_response_strategy", target := st }

/-- The high-success-rate suggestion of _analyze_response_effectiveness. -/
def expandSuggestion (st : String) : Suggestion :=
  { type := "response_optimization", priority := "low",
    suggestion := "Response strategy " ++ st ++ " is highly effective",
    action := "expand_strategy_usage", target := st }

/-- LearningLayer._analyze_response_effectiveness: group the most recent
100 feedback records by strategy; for a strategy with more than 10 data
points, emit a high-priority improvement suggestion below a 60% success
rate and a low-priority expansion suggestion above 90%. (The formatted
success-rate figure inside the Python message text is elided.) -/
def analyze_response_effectiveness (ld : LearningData) : List Suggestion :=
  let recent := pyTail 100 ld.response_feedback
  let strategies := firstOccurrences (recent.map (fun fb => fb.strategy))
  strategies.flatMap (fun st =>
    let total := (recent.filter (fun fb => fb.strategy == st)).length
    let successful := (recent.filter (fun fb => fb.strategy == st && fb.success)).length
    if 10 < total then
      let success_rate : ℚ := ((successful : ℚ) / (total : ℚ)) * 100
      if success_rate < 60 then [improveSuggestion st]
      else if 90 < success_rate then [expandSuggestion st]
      else []
    else [])

/-- LearningLayer._analyze_pattern_discoveries: per discovered pattern,
sum the stored frequencies; above cumulative frequency 10 and when no
configured intent keyword occurs inside the pattern, suggest a new
intent. -/
def analyze_pattern_discoveries (ld : LearningData) : List Suggestion :=
  let pats := firstOccurrences (ld.pattern_discoveries.map (fun d => d.pattern))
  pats.flatMap (fun p =>
    let frequency := ((ld.pattern_discoveries.filter (fun d => d.pattern == p)).map
      (fun d => d.frequency)).sum
    if 10 < frequency then
      if INTENTS.any (fun kv => kv.2.any (fun kw => strContains p kw)) then []
      else [{ type := "new_intent_suggestion", priority := "medium",
              suggestion := "Consider creating new intent for pattern " ++ p ++
                " (frequency: " ++ Nat.repr frequency ++ ")",
              action := "create_new_intent", target := p }]
    else [])

/-- LearningLayer.generate_optimization_suggestions: the concatenation of
the three analyses (the returned list, which the Python code also stores
over the previous suggestion snapshot). -/
def generate_optimization_suggestions (ld : LearningData) : List Suggestion :=
  analyze_intent_performance ld ++ analyze_response_effectiveness ld ++
    analyze_pattern_discoveries ld

theorem analyze_response_effectiveness_types (ld : LearningData) :
    ∀ s ∈ analyze_response_effectiveness ld,
      (s.type = "response_improvement" ∨ s.type = "response_optimization") ∧
      s.target ∈ firstOccurrences ((pyTail 100 ld.response_feedback).map
        (fun fb => fb.strategy)) ∧
      10 < ((pyTail 100 ld.response_feedback).filter
        (fun fb => fb.strategy == s.target)).length := by
  intro s hs
  simp only [analyze_response_effectiveness] at hs
  rcases List.mem_flatMap.mp hs with ⟨st, hst, hmem⟩
  split at hmem
  · rename_i hgt
    split at hmem
    · rw [List.mem_singleton] at hmem
      subst hmem
      exact ⟨Or.inl rfl, hst, hgt⟩
    · split at hmem
      · rw [List.mem_singleton] at hmem
        subst hmem
        exact ⟨Or.inr rfl, hst, hgt⟩
      · exact absurd hmem (List.not_mem_nil s)
  · exact absurd hmem (List.not_mem_nil s)

/-- C9. Starting from the empty corpus, generate_optimization_suggestions
never emits an intent_optimization (use-as-template) suggestion: its
guard needs more than 50 stored successful patterns, while every learning
step truncates each intent's successful patterns to the most recent 50. -/
theorem no_intent_optimization_suggestion_reachable :
    ∀ ts : List TurnInput,
      (generate_optimization_suggestions (runLearning ts)).filter
        (fun s => s.type == "intent_optimization") = [] := by
  intro ts
  unfold generate_optimization_suggestions
  rw [List.filter_append, List.filter_append]
  have h1 : (analyze_intent_performance (runLearning ts)).filter
      (fun s => s.type == "intent_optimization") = [] := by
    rw [List.filter_eq_nil_iff]
    intro s hs
    rcases List.mem_flatMap.mp hs with ⟨kv, hkv, hmem⟩
    rcases List.mem_append.mp hmem with h | h
    · by_cases hc : 10 < kv.2.failed_patterns.length
      · rw [if_pos hc, List.mem_singleton] at h
        subst h
        show ¬(("intent_improvement" : String) == "intent_optimization") = true
        decide
      · rw [if_neg hc] at h
        exact absurd h (List.not_mem_nil s)
    · by_cases hc : 50 < kv.2.successful_patterns.length ∧ kv.2.failed_patterns.length < 5
      · exfalso
        have hb := (runLearning_boundsOK ts).1 kv hkv
        omega
      · rw [if_neg hc] at h
        exact absurd h (List.not_mem_nil s)
  have h2 : (analyze_response_effectiveness (runLearning ts)).filter
      (fun s => s.type == "intent_optimization") = [] := by
    rw [List.filter_eq_nil_iff]
    intro s hs
    rcases (analyze_response_effectiveness_types (runLearning ts) s hs).1 with h | h <;>
      (rw [h]; decide)
  have h3 : (analyze_pattern_discoveries (runLearning ts)).filter
      (fun s => s.type == "intent_optimization") = [] := by
    rw [List.filter_eq_nil_iff]
    intro s hs
    simp only [analyze_pattern_discoveries] at hs
    rcases List.mem_flatMap.mp hs with ⟨p, hp, hmem⟩
    split at hmem
    · split at hmem
      · exact absurd hmem (List.not_mem_nil s)
      · rw [List.mem_singleton] at hmem
        subst hmem
        show ¬(("new_intent_suggestion" : String) == "intent_optimization") = true
        decide
    · exact absurd hmem (List.not_mem_nil s)
  rw [h1, h2, h3]
  rfl

/-! ## C7: strategy-suggestion thresholds -/

/-- C7 counterexample turn: a failing generative_ai turn. -/
def txFail : TurnInput :=
  { user_id := "u2", user_message := "zzzz", strategy := "generative_ai",
    response_confidence := 0, intent := "question", sentiment := "negative",
    success := false, now := "2025-01-02T00:00:00", today := "2025-01-02" }

/-- C7 counterexample. After 10 failing generative_ai turns the strategy
has exactly 10 samples among the recent feedback, success rate 0% (below
60%), yet _analyze_response_effectiveness emits no suggestion for it: the
code requires strictly more than 10 samples, not at least 10. -/
theorem strategy_suggestion_at_ten_samples_none :
    ((pyTail 100 (runLearning (List.replicate 10 txFail)).response_feedback).filter
      (fun fb => fb.strategy == "generative_ai")).length = 10 ∧
    ((pyTail 100 (runLearning (List.replicate 10 txFail)).response_feedback).filter
      (fun fb => fb.strategy == "generative_ai" && fb.success)).length = 0 ∧
    (analyze_response_effectiveness (runLearning (List.replicate 10 txFail))).filter
      (fun s => s.target == "generative_ai") = [] := by
  refine ⟨by decide, by decide, by decide⟩

/-- C7 (amended). Over the most recent 100 feedback records: a strategy
with MORE than 10 samples (at least 11) gets a high-priority
response_improvement suggestion when its success rate is below 60% and a
low-priority response_optimization suggestion when it is above 90%; a
strategy with at most 10 samples gets no strategy suggestion. -/
theorem strategy_suggestion_thresholds :
    ∀ (ld : LearningData) (st : String),
      (10 < ((pyTail 100 ld.response_feedback).filter
          (fun fb => fb.strategy == st)).length →
        ((((pyTail 100 ld.response_feedback).filter
            (fun fb => fb.strategy == st && fb.success)).length : ℚ) /
          (((pyTail 100 ld.response_feedback).filter
            (fun fb => fb.strategy == st)).length : ℚ)) * 100 < 60 →
        ∃ s ∈ analyze_response_effectiveness ld,
          s.type = "response_improvement" ∧ s.priority = "high" ∧ s.target = st) ∧
      (10 < ((pyTail 100 ld.response_feedback).filter
          (fun fb => fb.strategy == st)).length →
        90 < ((((pyTail 100 ld.response_feedback).filter
            (fun fb => fb.strategy == st && fb.success)).length : ℚ) /
          (((pyTail 100 ld.response_feedback).filter
            (fun fb => fb.strategy == st)).length : ℚ)) * 100 →
        ∃ s ∈ analyze_response_effectiveness ld,
          s.type = "response_optimization" ∧ s.priority = "low" ∧ s.target = st) ∧
      (((pyTail 100 ld.response_feedback).filter
          (fun fb => fb.strategy == st)).length ≤ 10 →
        (analyze_response_effectiveness ld).filter (fun s => s.target == st) = []) := by
  intro ld st
  have hstmem : 0 < ((pyTail 100 ld.response_feedback).filter
      (fun fb => fb.strategy == st)).length →
      st ∈ firstOccurrences ((pyTail 100 ld.response_feedback).map (fun fb => fb.strategy)) := by
    intro hpos
    rw [mem_firstOccurrences]
    rcases List.exists_mem_of_length_pos hpos with ⟨fb, hfb⟩
    rcases List.mem_filter.mp hfb with ⟨hfb2, hfbeq⟩
    exact List.mem_map.mpr ⟨fb, hfb2, by simpa using hfbeq⟩
  refine ⟨?_, ?_, ?_⟩
  · intro hgt hlow
    refine ⟨improveSuggestion st, ?_, rfl, rfl, rfl⟩
    simp only [analyze_response_effectiveness]
    refine List.mem_flatMap.mpr ⟨st, hstmem (by omega), ?_⟩
    rw [if_pos hgt, if_pos hlow]
    exact List.mem_singleton.mpr rfl
  · intro hgt hhigh
    refine ⟨expandSuggestion st, ?_, rfl, rfl, rfl⟩
    simp only [analyze_response_effectiveness]
    refine List.mem_flatMap.mpr ⟨st, hstmem (by omega), ?_⟩
    rw [if_pos hgt, if_neg (not_lt.mpr (le_trans (by norm_num) (le_of_lt hhigh))),
      if_pos hhigh]
    exact List.mem_singleton.mpr rfl
  · intro hle
    rw [List.filter_eq_nil_iff]
    intro s hs
    obtain ⟨-, -, hcount⟩ := analyze_response_effectiveness_types ld s hs
    intro hbeq
    have hts : s.target = st := by simpa using hbeq
    rw [hts] at hcount
    omega

/-- Witness for the amended C7: after 11 failing generative_ai turns the
strategy has 11 > 10 samples at success rate 0% and the high-priority
improvement suggestion is emitted. -/
theorem strategy_suggestion_thresholds_witness :
    ∃ s ∈ analyze_response_effectiveness (runLearning (List.replicate 11 txFail)),
      s.type = "response_improvement" ∧ s.priority = "high" ∧
      s.target = "generative_ai" := by
  apply (strategy_suggestion_thresholds (runLearning (List.replicate 11 txFail))
    "generative_ai").1
  · decide
  · rw [show ((pyTail 100 (runLearning (List.replicate 11 txFail)).response_feedback).filter
        (fun fb => fb.strategy == "generative_ai" && fb.success)).length = 0 from by decide,
      show ((pyTail 100 (runLearning (List.replicate 11 txFail)).response_feedback).filter
        (fun fb => fb.strategy == "generative_ai")).length = 11 from by decide]
    norm_num

/-! ## C6: the turn pipeline and its catch-all (backend/core.py) -/

/-- The outcome of NLPLayer.process consumed by the pipeline. -/
structure NlpResult where
  intent : String
  intent_confidence : ℚ
  entities : List String
  history : List String
deriving DecidableEq

/-- The outcome of ResponseLayer.generate_response. -/
structure GenResponse where
  text : String
  strategy : String
  confidence : ℚ
deriving DecidableEq

/-- The collaborating layers called by ChatbotCore.process_message. Each
is a fallible operation: `Except.error e` stands for a raised Python
exception carrying message `e`. -/
structure PipelineStages where
  preprocess : String → Except String String
  nlpProcess : String → String → Except String NlpResult
  sentimentAnalyze : String → Except String SentimentResult
  generateResponse : Decision → String → String → SentimentResult → List String →
    Except String GenResponse
  storeConversation : String → String → String → String → SentimentResult → Bool →
    Except String Unit
  trackConversation : String → String → SentimentResult → String → Bool →
    Except String Unit
  learnConversation : String → String → GenResponse → String → SentimentResult → Bool →
    Except String Unit
  updateContext : String → String → String → String → Except String Unit

/-- ChatbotCore._evaluate_response_success. -/
def evaluate_response_success (response : GenResponse) (decision : Decision) : Bool :=
  if response.confidence > 4/5 then true
  else if decision.strategy = "faq" then true
  else if decision.strategy = "rule_based" ∧ response.confidence > 3/5 then true
  else if decision.strategy = "generative_ai" ∧ response.confidence > 7/10 then true
  else if decision.strategy = "fallback" then decide (response.confidence > 1/2)
  else false

/-- The final response of a turn (the processing-time and timestamp
fields, pure clock reads, are elided). -/
structure FinalResponse where
  text : String
  intent : String
  intent_confidence : ℚ
  sentimentLabel : String
  polarity : ℚ
  entities : List String
  strategy : String
  confidence : ℚ
  success : Bool
  errorMsg : Option String
deriving DecidableEq

/-- The body of ChatbotCore.process_message's try block: the layer calls
in order. The decision engine and the success evaluation are the concrete
functions of this file; the collaborator layers are the given fallible
stages. -/
def pipelineBody (L : PipelineStages) (user_message user_id : String) :
    Except String FinalResponse := do
  let cleaned ← L.preprocess user_message
  let nlp ← L.nlpProcess cleaned user_id
  let sentiment ← L.sentimentAnalyze user_message
  let decision := decide_response_strategy user_message nlp.intent nlp.intent_confidence
    sentiment nlp.history
  let response ← L.generateResponse decision user_message nlp.intent sentiment nlp.history
  let success := evaluate_response_success response decision
  let _ ← L.storeConversation user_id user_message response.text nlp.intent sentiment success
  let _ ← L.trackConversation user_id nlp.intent sentiment response.strategy success
  let _ ← L.learnConversation user_id user_message response nlp.intent sentiment success
  let _ ← L.updateContext user_id user_message response.text nlp.intent
  pure { text := response.text, intent := nlp.intent,
         intent_confidence := nlp.intent_confidence, sentimentLabel := sentiment.sentiment,
         polarity := sentiment.polarity, entities := nlp.entities,
         strategy := response.strategy, confidence := response.confidence,
         success := success, errorMsg := none }

/-- The apologetic fallback response of process_message's except block. -/
def errorFallbackResponse (e : String) : FinalResponse :=
  { text := "I apologize, but I am having trouble processing your message right now. Could you please try rephrasing?",
    intent := "error", intent_confidence := 0, sentimentLabel := "neutral", polarity := 0,
    entities := [], strategy := "error_fallback", confidence := 3/10, success := false,
    errorMsg := some e }

/-- ChatbotCore.process_message: run the pipeline body and catch any
raised exception into the fallback response. The return type is a plain
FinalResponse — no exception can escape. -/
def process_message (L : PipelineStages) (user_message user_id : String) : FinalResponse :=
  match pipelineBody L user_message user_id with
  | Except.ok r => r
  | Except.error e => errorFallbackResponse e

/-- C6. Whatever the collaborating layers do, process_message always
returns a single FinalResponse (it is a total function into
FinalResponse, so no exception propagates), and whenever any stage of the
pipeline raises, the returned response is exactly the apologetic fallback
with intent "error" and success false. -/
theorem process_message_catch_all :
    ∀ (L : PipelineStages) (user_message user_id : String),
      (∀ e, pipelineBody L user_message user_id = Except.error e →
        process_message L user_message user_id = errorFallbackResponse e ∧
        (process_message L user_message user_id).intent = "error" ∧
        (process_message L user_message user_id).success = false) ∧
      (∀ r, pipelineBody L user_message user_id = Except.ok r →
        process_message L user_message user_id = r) := by
  intro L user_message user_id
  constructor
  · intro e he
    have h : process_message L user_message user_id = errorFallbackResponse e := by
      rw [process_message, he]
    exact ⟨h, by rw [h]; rfl, by rw [h]; rfl⟩
  · intro r hr
    rw [process_message, hr]

/-- A stage assembly whose very first layer raises. -/
def failingStages : PipelineStages :=
  { preprocess := fun _ => Except.error "boom",
    nlpProcess := fun _ _ => Except.error "unreached",
    sentimentAnalyze := fun _ => Except.error "unreached",
    generateResponse := fun _ _ _ _ _ => Except.error "unreached",
    storeConversation := fun _ _ _ _ _ _ => Except.error "unreached",
    trackConversation := fun _ _ _ _ _ => Except.error "unreached",
    learnConversation := fun _ _ _ _ _ _ => Except.error "unreached",
    updateContext := fun _ _ _ _ => Except.error "unreached" }

/-- Witness for C6: with a preprocessing layer that raises "boom", the
pipeline resolves to the apologetic fallback with intent "error" and
success false. -/
theorem process_message_catch_all_witness :
    process_message failingStages "hi" "u1" = errorFallbackResponse "boom" ∧
    (process_message failingStages "hi" "u1").intent = "error" ∧
    (process_message failingStages "hi" "u1").success = false :=
  (process_message_catch_all failingStages "hi" "u1").1 "boom" rfl

/-! ## Analytics data model (backend/storage_layer.py, backend/analytics_layer.py) -/

/-- One entry of analytics_data["intent_counts"]. -/
structure IntentCounts where
  total : Nat
  successful : Nat
  avg_confidence : ℚ
  confidence_sum : ℚ
deriving DecidableEq

/-- One entry of analytics_data["sentiment_records"]. -/
structure SentimentRecord where
  timestamp : String
  user_id : String
  sentiment : String
  polarity : ℚ
  emotions : List String
deriving DecidableEq

/-- One entry of analytics_data["response_success"] / ["failed_responses"]. -/
structure ResponseRecord where
  timestamp : String
  strategy : String
  success : Bool
  confidence : ℚ
  response_time : Option ℚ
deriving DecidableEq

/-- One entry of analytics_data["user_interactions"]. -/
structure UserInteraction where
  total_messages : Nat
  first_interaction : String
  last_interaction : String
  intents : List (String × Nat)
  avg_sentiment : ℚ
  sentiment_sum : ℚ
deriving DecidableEq

/-- The analytics store (analytics_data). -/
structure AnalyticsData where
  total_conversations : Nat
  intent_counts : List (String × IntentCounts)
  sentiment_records : List SentimentRecord
  response_success : List ResponseRecord
  failed_responses : List ResponseRecord
  user_interactions : List (String × UserInteraction)
deriving DecidableEq

/-- _load_analytics_data's default store. -/
def emptyAnalyticsData : AnalyticsData :=
  { total_conversations := 0, intent_counts := [], sentiment_records := [],
    response_success := [], failed_responses := [], user_interactions := [] }

/-- StorageLayer.store_intent_record, acting on the intent_counts table:
bump the intent's counters and recompute the running average confidence. -/
def storeIntentCountsMap (m : List (String × IntentCounts)) (intent : String)
    (confidence : ℚ) (success : Bool) : List (String × IntentCounts) :=
  let d0 := getVal m intent
    { total := 0, successful := 0, avg_confidence := 0, confidence_sum := 0 }
  let d1 : IntentCounts :=
    { total := d0.total + 1,
      successful := d0.successful + (if success then 1 else 0),
      confidence_sum := d0.confidence_sum + confidence,
      avg_confidence := (d0.confidence_sum + confidence) / ((d0.total : ℚ) + 1) }
  setVal m intent d1

/-- StorageLayer.store_intent_record. -/
def store_intent_record (ad : AnalyticsData) (intent : String) (confidence : ℚ)
    (success : Bool) : AnalyticsData :=
  { ad with intent_counts := storeIntentCountsMap ad.intent_counts intent confidence success }

/-- StorageLayer.store_sentiment_record: append, keep the most recent 1000. -/
def store_sentiment_record (ad : AnalyticsData) (now user_id : String)
    (sentiment : SentimentResult) : AnalyticsData :=
  let rs := ad.sentiment_records ++ [{ timestamp := now, user_id := user_id,
                                       sentiment := sentiment.sentiment,
                                       polarity := sentiment.polarity,
                                       emotions := sentiment.emotions }]
  { ad with sentiment_records := if 1000 < rs.length then pyTail 1000 rs else rs }

/-- StorageLayer.store_response_success: append a success record (bounded
to 500) or a failure record (bounded to 200). -/
def store_response_success (ad : AnalyticsData) (now strategy : String) (success : Bool)
    (confidence : ℚ) (response_time : Option ℚ) : AnalyticsData :=
  let record : ResponseRecord := { timestamp := now, strategy := strategy,
                                   success := success, confidence := confidence,
                                   response_time := response_time }
  if success then
    let rs := ad.response_success ++ [record]
    { ad with response_success := if 500 < rs.length then pyTail 500 rs else rs }
  else
    let rs := ad.failed_responses ++ [record]
    { ad with failed_responses := if 200 < rs.length then pyTail 200 rs else rs }

/-- Python `intents[intent] += 1` on a defaultdict(int). -/
def bumpIntentCount (m : List (String × Nat)) (intent : String) : List (String × Nat) :=
  setVal m intent (getVal m intent 0 + 1)

/-- AnalyticsLayer.track_conversation: bump the global counter, update the
per-user aggregate, then store the intent record (with the hard-coded
default confidence 0.8), the sentiment record, and the response
success/failure record (again with confidence 0.8). -/
def track_conversation (ad : AnalyticsData) (now user_id intent : String)
    (sentiment : SentimentResult) (response_strategy : String) (success : Bool)
    (response_time : Option ℚ) : AnalyticsData :=
  let ad1 := { ad with total_conversations := ad.total_conversations + 1 }
  let u0 := getVal ad1.user_interactions user_id
    { total_messages := 0, first_interaction := now, last_interaction := now,
      intents := [], avg_sentiment := 0, sentiment_sum := 0 }
  let u1 : UserInteraction :=
    { total_messages := u0.total_messages + 1,
      first_interaction := u0.first_interaction,
      last_interaction := now,
      intents := bumpIntentCount u0.intents intent,
      sentiment_sum := u0.sentiment_sum + sentiment.polarity,
      avg_sentiment := (u0.sentiment_sum + sentiment.polarity) / ((u0.total_messages : ℚ) + 1) }
  let ad2 := { ad1 with user_interactions := setVal ad1.user_interactions user_id u1 }
  let ad3 := store_intent_record ad2 intent (4/5) success
  let ad4 := store_sentiment_record ad3 now user_id sentiment
  store_response_success ad4 now response_strategy success (4/5) response_time

/-- The inputs of one track_conversation call. -/
structure TrackInput where
  now : String
  user_id : String
  intent : String
  sentiment : SentimentResult
  response_strategy : String
  success : Bool
  response_time : Option ℚ
deriving DecidableEq

/-- The analytics store after a sequence of tracked turns, starting empty. -/
def runAnalytics (ins : List TrackInput) : AnalyticsData :=
  ins.foldl (fun ad i => track_conversation ad i.now i.user_id i.intent i.sentiment
    i.response_strategy i.success i.response_time) emptyAnalyticsData

/-! ## Analytics reports -/

/-- One row of get_intent_analytics's breakdown. -/
structure IntentStats where
  total_count : Nat
  success_rate : ℚ
  avg_confidence : ℚ
  failure_count : Nat
deriving DecidableEq

/-- The report of AnalyticsLayer.get_intent_analytics. -/
structure IntentAnalytics where
  intent_breakdown : List (String × IntentStats)
  most_common_intent : Option String
  total_intents_processed : Nat
deriving DecidableEq

/-- AnalyticsLayer.get_intent_analytics: rows for intents with positive
totals, sorted descending by total count (Python's stable sort). -/
def get_intent_analytics (ad : AnalyticsData) : IntentAnalytics :=
  let rows := ad.intent_counts.filterMap (fun kv =>
    if 0 < kv.2.total then
      some (kv.1,
        { total_count := kv.2.total,
          success_rate := ((kv.2.successful : ℚ) / (kv.2.total : ℚ)) * 100,
          avg_confidence := kv.2.avg_confidence,
          failure_count := kv.2.total - kv.2.successful })
    else none)
  let sorted := rows.mergeSort (fun a b => b.2.total_count ≤ a.2.total_count)
  { intent_breakdown := sorted,
    most_common_intent := sorted.head?.map (fun kv => kv.1),
    total_intents_processed := (ad.intent_counts.map (fun kv => kv.2.total)).sum }

/-- One row of get_response_effectiveness's per-strategy table. -/
structure StrategyStats where
  success_rate : ℚ
  total_attempts : Nat
  successful_responses : Nat
  failed_responses : Nat
  avg_confidence : ℚ
deriving DecidableEq

/-- The report of AnalyticsLayer.get_response_effectiveness. -/
structure Effectiveness where
  strategy_effectiveness : List (String × StrategyStats)
  overall_success_rate : ℚ
  total_responses_generated : Nat
  failed_responses_count : Nat
deriving DecidableEq

/-- The union of the stored success and failure records, in the order the
two loops of get_response_effectiveness visit them. -/
def allRespRecords (ad : AnalyticsData) : List ResponseRecord :=
  ad.response_success ++ ad.failed_responses

/-- strategy_stats[strategy]["total"]: every visited record of the
strategy counts one attempt. -/
def stratTotal (ad : AnalyticsData) (st : String) : Nat :=
  ((allRespRecords ad).filter (fun r => r.strategy == st)).length

/-- strategy_stats[strategy]["successful"]: the first loop bumps it for
every record of the response_success list, unconditionally. -/
def stratSuccessful (ad : AnalyticsData) (st : String) : Nat :=
  (ad.response_success.filter (fun r => r.strategy == st)).length

/-- strategy_stats[strategy]["confidence_sum"]. -/
def stratConfSum (ad : AnalyticsData) (st : String) : ℚ :=
  (((allRespRecords ad).filter (fun r => r.strategy == st)).map
    (fun r => r.confidence)).sum

/-- AnalyticsLayer.get_response_effectiveness: per-strategy rates over the
union of success and failure records (strategies in first-appearance
order, the Python dict's iteration order), and the zero-guarded overall
success rate. The Python try/except around the body can only ever take
the happy path here, all operations being total. -/
def get_response_effectiveness (ad : AnalyticsData) : Effectiveness :=
  let strategies := firstOccurrences ((allRespRecords ad).map (fun r => r.strategy))
  let eff := strategies.filterMap (fun st =>
    if 0 < stratTotal ad st then
      some (st,
        { success_rate := ((stratSuccessful ad st : ℚ) / (stratTotal ad st : ℚ)) * 100,
          total_attempts := stratTotal ad st,
          successful_responses := stratSuccessful ad st,
          failed_responses := stratTotal ad st - stratSuccessful ad st,
          avg_confidence := stratConfSum ad st / (stratTotal ad st : ℚ) })
    else none)
  let total_attempts := (strategies.map (fun st => stratTotal ad st)).sum
  let total_successful := (strategies.map (fun st => stratSuccessful ad st)).sum
  { strategy_effectiveness := eff,
    overall_success_rate :=
      if 0 < total_attempts then ((total_successful : ℚ) / (total_attempts : ℚ)) * 100
      else 0,
    total_responses_generated := total_attempts,
    failed_responses_count := ad.failed_responses.length }

/-- The success rate the effectiveness report carries for a strategy; a
strategy absent from the report reads as rate 0. -/
def reportedStrategyRate (eff : Effectiveness) (st : String) : ℚ :=
  ((eff.strategy_effectiveness.find? (fun kv => kv.1 == st)).map
    (fun kv => kv.2.success_rate)).getD 0

/-- The global attempt count of get_response_effectiveness: the sum of
the per-strategy totals over the visited strategies. -/
def globalAttempts (ad : AnalyticsData) : Nat :=
  ((firstOccurrences ((allRespRecords ad).map (fun r => r.strategy))).map
    (fun st => stratTotal ad st)).sum

/-- The global successful count of get_response_effectiveness. -/
def globalSuccessful (ad : AnalyticsData) : Nat :=
  ((firstOccurrences ((allRespRecords ad).map (fun r => r.strategy))).map
    (fun st => stratSuccessful ad st)).sum

/-- C8. get_response_effectiveness never divides by zero: the reported
overall success rate is 100 * global successful / global attempts and is
0 when there are zero attempts, and the rate the report carries for a
strategy with 0 attempts is 0 (such a strategy has no row, which reads as
rate 0). -/
theorem response_effectiveness_zero_guarded :
    ∀ ad : AnalyticsData,
      (get_response_effectiveness ad).overall_success_rate =
        (if 0 < globalAttempts ad then
          100 * (globalSuccessful ad : ℚ) / (globalAttempts ad : ℚ) else 0) ∧
      (∀ st : String, stratTotal ad st = 0 →
        reportedStrategyRate (get_response_effectiveness ad) st = 0) := by
  intro ad
  constructor
  · show (if 0 < globalAttempts ad then
        ((globalSuccessful ad : ℚ) / (globalAttempts ad : ℚ)) * 100 else 0) = _
    rcases Nat.eq_zero_or_pos (globalAttempts ad) with h0 | h0
    · rw [h0]
      rfl
    · rw [if_pos h0, if_pos h0, mul_comm, ← mul_div_assoc]
  · intro st h0
    have hnone : (get_response_effectiveness ad).strategy_effectiveness.find?
        (fun kv => kv.1 == st) = none := by
      rw [List.find?_eq_none]
      intro kv hkv
      simp only [get_response_effectiveness] at hkv
      rcases List.mem_filterMap.mp hkv with ⟨st2, hst2, hok⟩
      split at hok
      · rename_i hpos
        cases hok
        intro hbeq
        have hst : st2 = st := by simpa using hbeq
        rw [hst] at hpos
        omega
      · exact absurd hok (by simp)
    rw [reportedStrategyRate, hnone]
    rfl

/-- Witness for C8 at the empty store: the strategy "faq" has 0 attempts
and its reported rate is 0. -/
theorem response_effectiveness_zero_guarded_witness :
    reportedStrategyRate (get_response_effectiveness emptyAnalyticsData) "faq" = 0 :=
  (response_effectiveness_zero_guarded emptyAnalyticsData).2 "faq" rfl

/-! ## C10: the hard-coded 0.8 confidence of track_conversation -/

theorem getVal_cases {α : Type _} (m : List (String × α)) (k : String) (d : α) :
    getVal m k d = d ∨ ∃ kv ∈ m, kv.1 = k ∧ getVal m k d = kv.2 := by
  unfold getVal
  cases hf : m.find? (fun kv => kv.1 == k) with
  | none => exact Or.inl rfl
  | some kv =>
    refine Or.inr ⟨kv, List.mem_of_find?_eq_some hf, ?_, rfl⟩
    have := List.find?_some hf
    simpa using this

theorem sum_map_confidence (c : ℚ) :
    ∀ l : List ResponseRecord, (∀ r ∈ l, r.confidence = c) →
      (l.map (fun r => r.confidence)).sum = c * l.length := by
  intro l
  induction l with
  | nil => simp
  | cons r rest ih =>
    intro h
    simp only [List.map_cons, List.sum_cons, List.length_cons]
    rw [h r (List.mem_cons_self _ _), ih (fun x hx => h x (List.mem_cons_of_mem _ hx))]
    push_cast
    ring

/-- The 0.8-confidence invariant of analytics stores built solely through
track_conversation. -/
def ConfOK (ad : AnalyticsData) : Prop :=
  (∀ e ∈ ad.intent_counts,
    0 < e.2.total ∧ e.2.confidence_sum = (4/5) * (e.2.total : ℚ) ∧
    e.2.avg_confidence = 4/5) ∧
  (∀ r ∈ allRespRecords ad, r.confidence = 4/5)

theorem storeIntentCountsMap_confOK (m : List (String × IntentCounts)) (intent : String)
    (success : Bool)
    (h : ∀ e ∈ m,
      0 < e.2.total ∧ e.2.confidence_sum = (4/5) * (e.2.total : ℚ) ∧
      e.2.avg_confidence = 4/5) :
    ∀ e ∈ storeIntentCountsMap m intent (4/5) success,
      0 < e.2.total ∧ e.2.confidence_sum = (4/5) * (e.2.total : ℚ) ∧
      e.2.avg_confidence = 4/5 := by
  intro e he
  simp only [storeIntentCountsMap] at he
  rcases mem_setVal _ _ _ _ he with h1 | h1
  · subst h1
    have hd0 : (getVal m intent
        { total := 0, successful := 0, avg_confidence := 0,
          confidence_sum := 0 }).confidence_sum =
        (4/5) * ((getVal m intent
        { total := 0, successful := 0, avg_confidence := 0,
          confidence_sum := 0 }).total : ℚ) := by
      rcases getVal_cases m intent
        { total := 0, successful := 0, avg_confidence := 0, confidence_sum := 0 } with
        hg | ⟨kv, hkv, -, hg⟩
      · rw [hg]
        simp
      · rw [hg]
        exact (h kv hkv).2.1
    refine ⟨Nat.succ_pos _, ?_, ?_⟩
    · dsimp only
      rw [hd0]
      push_cast
      ring
    · dsimp only
      rw [hd0]
      have hpos : (0 : ℚ) < ((getVal m intent
          { total := 0, successful := 0, avg_confidence := 0,
            confidence_sum := 0 }).total : ℚ) + 1 := by positivity
      field_simp
      ring
  · exact h e h1

theorem store_response_success_mem (ad : AnalyticsData) (now strategy : String)
    (success : Bool) (confidence : ℚ) (rt : Option ℚ) :
    ∀ r ∈ allRespRecords (store_response_success ad now strategy success confidence rt),
      r ∈ allRespRecords ad ∨ r.confidence = confidence := by
  intro r hr
  simp only [store_response_success, allRespRecords] at hr
  split at hr
  · dsimp only at hr
    rcases List.mem_append.mp hr with h | h
    · have h2 : r ∈ ad.response_success ++
          [{ timestamp := now, strategy := strategy, success := success,
             confidence := confidence, response_time := rt }] := by
        split at h
        · exact (pyTail_sublist _ _).mem h
        · exact h
      rcases List.mem_append.mp h2 with h3 | h3
      · exact Or.inl (List.mem_append.mpr (Or.inl h3))
      · refine Or.inr ?_
        have hre : r = { timestamp := now, strategy := strategy, success := success,
                         confidence := confidence, response_time := rt } := by
          simpa using h3
        rw [hre]
    · exact Or.inl (List.mem_append.mpr (Or.inr h))
  · dsimp only at hr
    rcases List.mem_append.mp hr with h | h
    · exact Or.inl (List.mem_append.mpr (Or.inl h))
    · have h2 : r ∈ ad.failed_responses ++
          [{ timestamp := now, strategy := strategy, success := success,
             confidence := confidence, response_time := rt }] := by
        split at h
        · exact (pyTail_sublist _ _).mem h
        · exact h
      rcases List.mem_append.mp h2 with h3 | h3
      · exact Or.inl (List.mem_append.mpr (Or.inr h3))
      · refine Or.inr ?_
        have hre : r = { timestamp := now, strategy := strategy, success := success,
                         confidence := confidence, response_time := rt } := by
          simpa using h3
        rw [hre]

theorem track_conversation_confOK (ad : AnalyticsData) (now user_id intent : String)
    (sentiment : SentimentResult) (strategy : String) (success : Bool)
    (rt : Option ℚ) (h : ConfOK ad) :
    ConfOK (track_conversation ad now user_id intent sentiment strategy success rt) := by
  constructor
  · intro e he
    have hproj : (track_conversation ad now user_id intent sentiment strategy success
        rt).intent_counts = storeIntentCountsMap ad.intent_counts intent (4/5) success := by
      simp only [track_conversation, store_response_success, store_sentiment_record,
        store_intent_record]
      split <;> rfl
    rw [hproj] at he
    exact storeIntentCountsMap_confOK _ intent success (fun e2 he3 => h.1 e2 he3) e he
  · intro r hr
    have hr2 : r ∈ allRespRecords (store_response_success _ now strategy success (4/5) rt) := hr
    rcases store_response_success_mem _ now strategy success (4/5) rt r hr2 with h2 | h2
    · exact h.2 r h2
    · exact h2

theorem runAnalytics_confOK (ins : List TrackInput) : ConfOK (runAnalytics ins) := by
  refine foldl_invariant _ ConfOK ?_ ins emptyAnalyticsData ?_
  · intro ad i hC
    exact track_conversation_confOK ad i.now i.user_id i.intent i.sentiment
      i.response_strategy i.success i.response_time hC
  · exact ⟨fun e he => absurd he (List.not_mem_nil e),
      fun r hr => absurd hr (List.not_mem_nil r)⟩

/-- C10. In every analytics store built solely through
track_conversation, every stored intent record and every stored
response success/failure record carries the hard-coded confidence 0.8
(the caller's actual decision confidence is discarded), so the
avg_confidence reported per intent by get_intent_analytics and per
strategy by get_response_effectiveness is always 0.8. -/
theorem track_conversation_constant_confidence :
    ∀ ins : List TrackInput,
      (∀ e ∈ (runAnalytics ins).intent_counts, e.2.avg_confidence = 4/5) ∧
      (∀ r ∈ allRespRecords (runAnalytics ins), r.confidence = 4/5) ∧
      (∀ e ∈ (get_intent_analytics (runAnalytics ins)).intent_breakdown,
        e.2.avg_confidence = 4/5) ∧
      (∀ e ∈ (get_response_effectiveness (runAnalytics ins)).strategy_effectiveness,
        e.2.avg_confidence = 4/5) := by
  intro ins
  obtain ⟨hint, hresp⟩ := runAnalytics_confOK ins
  refine ⟨fun e he => (hint e he).2.2, hresp, ?_, ?_⟩
  · intro e he
    simp only [get_intent_analytics] at he
    have he2 := (List.mergeSort_perm _ _).mem_iff.mp he
    rcases List.mem_filterMap.mp he2 with ⟨kv, hkv, hok⟩
    split at hok
    · cases hok
      exact (hint kv hkv).2.2
    · exact absurd hok (by simp)
  · intro e he
    simp only [get_response_effectiveness] at he
    rcases List.mem_filterMap.mp he with ⟨st, hst, hok⟩
    split at hok
    · rename_i hpos
      cases hok
      show stratConfSum (runAnalytics ins) st / (stratTotal (runAnalytics ins) st : ℚ) = 4/5
      have hall : ∀ r ∈ (allRespRecords (runAnalytics ins)).filter
          (fun r => r.strategy == st), r.confidence = 4/5 :=
        fun r hr => hresp r (List.mem_filter.mp hr).1
      rw [stratConfSum, sum_map_confidence (4/5) _ hall]
      have hne : ((stratTotal (runAnalytics ins) st : ℚ)) ≠ 0 := by
        exact_mod_cast Nat.pos_iff_ne_zero.mp hpos
      rw [show (((allRespRecords (runAnalytics ins)).filter
        (fun r => r.strategy == st)).length : ℚ) = (stratTotal (runAnalytics ins) st : ℚ)
        from rfl]
      rw [mul_div_assoc, div_self hne, mul_one]
    · exact absurd hok (by simp)

/-- The turn used by the concrete analytics computation. -/
def i0 : TrackInput :=
  { now := "2025-01-03T00:00:00", user_id := "u3", intent := "greeting",
    sentiment := { sentiment := "positive", polarity := 1/2, emotions := [] },
    response_strategy := "rule_based", success := true, response_time := none }

/-- Witness for C10 at one tracked turn: the stored response record
carries confidence 0.8. -/
theorem track_conversation_constant_confidence_witness :
    ({ timestamp := "2025-01-03T00:00:00", strategy := "rule_based", success := true,
       confidence := 4/5, response_time := none } : ResponseRecord).confidence = 4/5 :=
  (track_conversation_constant_confidence [i0]).2.1 _
    (by rw [show allRespRecords (runAnalytics [i0]) =
          [{ timestamp := "2025-01-03T00:00:00", strategy := "rule_based", success := true,
             confidence := 4/5, response_time := none }] from rfl]
        exact List.mem_singleton.mpr rfl)

end Chatbot
